import Mathlib

/-!
# Soil-Song: token cache, inference client, speech synthesizer, controller, playback

A shallow embedding of the server side of the Soil-Song repository
(`soil-song-backend/src`) and of the playback code of its mobile client
(`soil-song-app/screens`):

* `services/ibmAuthService.js`   : `getAccessToken`, `forceRefreshToken`
* `services/graniteAiService.js` : `generateSoilStory`
* `services/ttsService.js`       : `generateAudio`
* `services/mockGraniteService.js`: `generateMockSoilStory`
* `controllers/soilController.js`: `generateStory`
* `screens/ResultScreen.js`      : `loadSound`, `handleAppStateChange`, `retryAudio`,
  `seekAudio`, `onPlaybackStatusUpdate`, the connectivity listener

The JavaScript modules keep their state in module-level variables and talk to
the outside world (identity provider, inference provider, speech endpoint,
clock, file system).  Here the outside world is an `Env` of oracles, the
module-level variables and the file system are a `State`, and every function
threads the state explicitly.  Ghost counters in the state record how many
requests were sent, so that statements such as "exactly two provider
requests" can be written down.  The client is treated the same way, with a
`Device` of oracles and a `Player` state.
-/

namespace SoilSong

/-! ## Values of the host language -/

/-- A JavaScript number: `NaN`, the two infinities, or a finite value.  Every
finite double is a rational number and the comparisons the code performs
(`<`, `>`) are exact, so finite values are modelled by `ℚ`. -/
inductive JsNum where
  | nan
  | posInf
  | negInf
  | fin (q : ℚ)
  deriving DecidableEq

/-- A parsed JSON value (what `JSON.parse` returns).  A number literal is kept
as a decimal `mantissa * 10 ^ exponent`. -/
inductive Json where
  | null
  | bool (b : Bool)
  | num (mantissa : Int) (exponent : Int)
  | str (s : String)
  | arr (items : List Json)
  | obj (members : List (String × Json))

/-- A thrown JavaScript `Error`: its `message`, and `response.status` when the
error is an axios error that carries an HTTP response. -/
structure JsError where
  message : String
  status : Option Nat
  deriving DecidableEq, Repr

deriving instance DecidableEq for Except

/-! ## The outside world -/

/-- Outcome of `axios.post(IAM_TOKEN_URL, ...)`. -/
inductive IamReply where
  /-- The request is rejected: network failure or a non-2xx status. -/
  | failure (message : String)
  /-- A 2xx response; `accessToken = none` stands for a body without
  `access_token` (or no body), `expiresIn = none` for a missing `expires_in`
  (the product `expires_in * 1000` is then `NaN`). -/
  | ok (accessToken : Option String) (expiresIn : Option Int)
  deriving DecidableEq, Repr

/-- Outcome of `axios.post(url, body, { headers })` against the inference
provider. -/
inductive ProviderReply where
  /-- No response at all (`error.response` is undefined). -/
  | networkError (message : String)
  /-- A response with a non-2xx status: axios rejects with
  `error.response.status = status`. -/
  | httpError (status : Nat) (message : String)
  /-- A 2xx response.  `none` is a body without `results[0]`;
  `some none` is a first result without `generated_text`;
  `some (some t)` is a first result whose `generated_text` is `t`. -/
  | ok (generated : Option (Option String))
  deriving DecidableEq, Repr

/-- Outcome of one `https.get(audioData.url, callback).on('error', handler)`
of the download loop, as the promise around it sees it. -/
inductive DownloadReply where
  /-- The request emits `'error'` and no response arrives (refused connection,
  failed lookup, socket hang up): the handler runs and the promise rejects. -/
  | requestError (message : String)
  /-- A response arrives and its body is received to the end.  The callback
  pipes the body into the chunk file without reading `response.statusCode`, so
  the reply of an error status (404, 500, ...) is handled like a 200. -/
  | response (statusCode : Nat) (body : List Nat)
  /-- A response arrives and breaks off before its end.  The failure is
  reported on the response, where nothing listens: the chunk file never
  emits `'finish'` and the promise is neither resolved nor rejected. -/
  | brokenResponse (statusCode : Nat) (received : List Nat)
  deriving DecidableEq, Repr

/-- The `soilData` object handed to the story generator. -/
structure SoilData where
  pH : String
  moisture : String
  imageAnalysis : String
  deriving DecidableEq, Repr

/-- Everything the backend reads from outside itself.  Requests are numbered
in the order the process sends them, so an oracle indexed by that number can
answer each request in any way whatsoever. -/
structure Env where
  /-- `process.env.IBM_API_KEY`. -/
  apiKey : Option String
  /-- `Date.now()` at its `k`-th reading, in milliseconds. -/
  clock : Nat → Int
  /-- Reply of the identity provider to the `k`-th token request. -/
  iam : Nat → IamReply
  /-- Reply of the inference provider to the `k`-th generation request. -/
  provider : Nat → SoilData → ProviderReply
  /-- The built-in `JSON.parse`; `none` when it throws. -/
  jsonParse : String → Option Json
  /-- The built-in `parseFloat` on strings. -/
  parseFloat : String → JsNum
  /-- The built-in `Number.prototype.toString`. -/
  numberToString : JsNum → String
  /-- The audio storage directory, `path.join(__dirname, '../../', AUDIO_STORAGE_PATH)`. -/
  audioDir : String
  /-- The upload directory, `path.join(__dirname, '../../', UPLOAD_PATH)`. -/
  uploadDir : String
  /-- Result of the `k`-th call of `uuidv4()`. -/
  uuid : Nat → String
  /-- The library call `googleTTS.getAllAudioUrls(text, ...)`: the URLs of the
  segments in order, or the message of the error it throws.  The argument is
  whatever the caller passes (`none` is `undefined`). -/
  ttsSplit : Option Json → Except String (List String)
  /-- Outcome of the `k`-th `https.get`, for the URL it asks. -/
  download : Nat → String → DownloadReply
  /-- Whether `fs.renameSync` throws. -/
  renameFails : Bool
  /-- The message of the error `fs.copyFileSync` throws, if it throws. -/
  copyError : Option String
  /-- Whether `fs.unlinkSync` throws for a path. -/
  unlinkFails : String → Bool
  /-- Decoding done by `Buffer.from(base64Image, 'base64')`. -/
  base64Decode : String → List Nat
  /-- The message of the error `fs.writeFileSync` throws, if it throws. -/
  imageWriteError : Option String

/-- The files under the storage roots: path and content, one entry a path. -/
abbrev Files := List (String × List Nat)

/-- Module-level variables of `ibmAuthService.js`, the file system, and ghost
counters. -/
structure State where
  /-- `cachedToken` (`none` is `null`). -/
  cachedToken : Option String
  /-- `tokenExpiration` in milliseconds (`none` is `NaN`). -/
  tokenExpiration : Option Int
  /-- Number of `Date.now()` readings so far. -/
  clockReads : Nat
  /-- Number of requests sent to the identity provider so far. -/
  iamCalls : Nat
  /-- Number of requests sent to the inference provider so far. -/
  providerCalls : Nat
  /-- Number of `forceRefreshToken` calls so far. -/
  refreshCalls : Nat
  /-- The stored files. -/
  files : Files
  /-- Number of `uuidv4()` calls so far. -/
  uuidCalls : Nat
  /-- Number of `https.get` downloads started so far. -/
  downloads : Nat
  /-- Number of times the controller invoked the story generator. -/
  storyCalls : Nat
  /-- Number of times the controller invoked `generateAudio`. -/
  audioCalls : Nat
  deriving DecidableEq, Repr

/-- The state of a freshly started process. -/
def State.initial : State :=
  { cachedToken := none, tokenExpiration := some 0, clockReads := 0,
    iamCalls := 0, providerCalls := 0, refreshCalls := 0, files := [],
    uuidCalls := 0, downloads := 0, storyCalls := 0, audioCalls := 0 }

/-! ## `ibmAuthService.js` -/

/-- The constant `EXPIRATION_BUFFER = 5 * 60 * 1000` (milliseconds). -/
def EXPIRATION_BUFFER : Int := 5 * 60 * 1000

/-- The test `cachedToken && tokenExpiration > now + EXPIRATION_BUFFER`:
the cached token when the test passes.  An empty string is falsy, and a
comparison with `NaN` is false. -/
def cachedIfValid (s : State) (now : Int) : Option String :=
  match s.cachedToken, s.tokenExpiration with
  | some tok, some expiration =>
    if tok ≠ "" ∧ expiration > now + EXPIRATION_BUFFER then some tok else none
  | _, _ => none

/-- The wrapping done by the `catch` of `getAccessToken`. -/
def tokenError (message : String) : JsError :=
  { message := "Failed to get IBM Cloud access token: " ++ message, status := none }

/-- Where `getAccessToken` stands after running up to its only `await`. -/
inductive TokenStep where
  /-- The call finished without suspending. -/
  | done (result : Except JsError String)
  /-- The call sent request number `request` to the identity provider and is
  suspended on it; `now` is the clock value it read. -/
  | awaiting (now : Int) (request : Nat)
  deriving DecidableEq, Repr

/-- First segment of `getAccessToken`: from entry to the `await axios.post`. -/
def getAccessTokenBegin (env : Env) (s : State) : TokenStep × State :=
  let now := env.clock s.clockReads
  let s1 := { s with clockReads := s.clockReads + 1 }
  match cachedIfValid s now with
  | some tok => (.done (.ok tok), s1)
  | none =>
    match env.apiKey with
    | none =>
      (.done (.error (tokenError
        "IBM API key is not configured in environment variables (IBM_API_KEY)")), s1)
    | some key =>
      if key = "" then
        (.done (.error (tokenError
          "IBM API key is not configured in environment variables (IBM_API_KEY)")), s1)
      else
        (.awaiting now s1.iamCalls, { s1 with iamCalls := s1.iamCalls + 1 })

/-- The checks on the settled `axios.post`: a rejected request, or a response
without a (non-empty) `access_token`, is the error that the `catch` wraps;
otherwise the token and `expires_in`. -/
def readIamReply (reply : IamReply) : Except JsError (String × Option Int) :=
  match reply with
  | .failure message => .error (tokenError message)
  | .ok none _ => .error (tokenError "Invalid response from IBM IAM token service")
  | .ok (some tok) expiresIn =>
    if tok = "" then .error (tokenError "Invalid response from IBM IAM token service")
    else .ok (tok, expiresIn)

/-- Second segment of `getAccessToken`: from the settled `axios.post` to the
return.  `now` is the clock value read by the first segment. -/
def getAccessTokenResume (now : Int) (reply : IamReply) (s : State) :
    Except JsError String × State :=
  match readIamReply reply with
  | .error e => (.error e, s)
  | .ok (tok, expiresIn) =>
    (.ok tok,
      { s with cachedToken := some tok
               tokenExpiration := expiresIn.map (fun secs => now + secs * 1000) })

/-- Run a suspended `getAccessToken` call to its end once its request has
settled. -/
def finishTokenStep (env : Env) (step : TokenStep) (s : State) :
    Except JsError String × State :=
  match step with
  | .done result => (result, s)
  | .awaiting now request => getAccessTokenResume now (env.iam request) s

/-- The function `getAccessToken`, run without interleaving. -/
def getAccessToken (env : Env) (s : State) : Except JsError String × State :=
  match getAccessTokenBegin env s with
  | (step, s1) => finishTokenStep env step s1

/-- The function `forceRefreshToken`. -/
def forceRefreshToken (env : Env) (s : State) : Except JsError String × State :=
  getAccessToken env
    { s with cachedToken := none, tokenExpiration := some 0,
             refreshCalls := s.refreshCalls + 1 }

/-- Two `getAccessToken` calls issued concurrently: the second call is issued
while the first is suspended on its `await`, so both first segments run before
either request settles.  `firstSettlesFirst` says in which order the two
requests settle.  The result is what the first and the second caller
receive. -/
def concurrentGetAccessToken (env : Env) (firstSettlesFirst : Bool) (s : State) :
    (Except JsError String × Except JsError String) × State :=
  match getAccessTokenBegin env s with
  | (stepA, s1) =>
    match getAccessTokenBegin env s1 with
    | (stepB, s2) =>
      if firstSettlesFirst then
        match finishTokenStep env stepA s2 with
        | (resultA, s3) =>
          match finishTokenStep env stepB s3 with
          | (resultB, s4) => ((resultA, resultB), s4)
      else
        match finishTokenStep env stepB s2 with
        | (resultB, s3) =>
          match finishTokenStep env stepA s3 with
          | (resultA, s4) => ((resultA, resultB), s4)

/-! ## `graniteAiService.js` -/

/-- The character U+007B (left curly bracket). -/
def openBrace : Char := Char.ofNat 123

/-- The character U+007D (right curly bracket). -/
def closeBrace : Char := Char.ofNat 125

/-- Characters removed by `String.prototype.trim`: the ECMAScript `WhiteSpace`
and `LineTerminator` code points. -/
def isTrimmed (c : Char) : Bool :=
  let n := c.toNat
  n = 9 || n = 10 || n = 11 || n = 12 || n = 13 || n = 32 || n = 160 || n = 5760 ||
    (8192 ≤ n && n ≤ 8202) || n = 8232 || n = 8233 || n = 8239 || n = 8287 ||
    n = 12288 || n = 65279

/-- The test `!generatedText || generatedText.trim() === ''`. -/
def isEmptyText (generated : Option String) : Bool :=
  match generated with
  | none => true
  | some text => text.toList.all isTrimmed

/-- The first element of `generatedText.match(/\x7b[\s\S]*\x7d/g)`: the span from
the first opening brace through the last closing brace after it, `none` when
there is no match. -/
def extractJson (text : String) : Option String :=
  let fromOpen := text.toList.dropWhile (fun c => c != openBrace)
  let span := (fromOpen.reverse.dropWhile (fun c => c != closeBrace)).reverse
  match span with
  | [] => none
  | _ :: _ => some (String.mk span)

/-- Which of the two parsing attempts produced the returned value (the code
logs one of two different messages). -/
inductive ParsePath where
  | direct
  | extracted
  deriving DecidableEq, Repr

/-- The error thrown by the `catch (parseError)` handler. -/
def parseFailure : JsError :=
  { message := "Failed to parse the generated soil story", status := none }

/-- The parsing block of `generateSoilStory` (the inner `try`): direct
`JSON.parse`, then `JSON.parse` of the extracted span, then failure. -/
def parseGeneratedText (env : Env) (text : String) : Except JsError (ParsePath × Json) :=
  match env.jsonParse text with
  | some value => .ok (.direct, value)
  | none =>
    match extractJson text with
    | none => .error parseFailure
    | some span =>
      match env.jsonParse span with
      | some value => .ok (.extracted, value)
      | none => .error parseFailure

/-- What the code does with a settled provider request: the checks on the
response structure and text, then the parsing block. -/
def readProviderReply (env : Env) (reply : ProviderReply) : Except JsError Json :=
  match reply with
  | .networkError message => .error { message := message, status := none }
  | .httpError status message => .error { message := message, status := some status }
  | .ok none =>
    .error { message := "Invalid or empty response structure from IBM API", status := none }
  | .ok (some generated) =>
    if isEmptyText generated then
      .error { message := "Empty response from IBM Granite API", status := none }
    else
      match parseGeneratedText env (generated.getD "") with
      | .ok (_, value) => .ok value
      | .error e => .error e

/-- The body of the outer `try` of `generateSoilStory`: obtain a token, send
one request, read the reply. -/
def generateSoilStoryAttempt (env : Env) (soilData : SoilData) (s : State) :
    Except JsError Json × State :=
  match getAccessToken env s with
  | (.error e, s1) => (.error e, s1)
  | (.ok _, s1) =>
    (readProviderReply env (env.provider s1.providerCalls soilData),
      { s1 with providerCalls := s1.providerCalls + 1 })

/-- The error thrown at the end of the outer `catch`. -/
def storyError (e : JsError) : JsError :=
  { message := "Failed to generate soil story: " ++ e.message, status := none }

/-- The function `generateSoilStory`.  The JavaScript function calls itself
from its own `catch` handler, so the recursion depth is not bounded by the
code; `fuel` bounds it here and `none` means the fuel ran out. -/
def generateSoilStory (env : Env) (soilData : SoilData) :
    Nat → State → Option (Except JsError Json × State)
  | 0, _ => none
  | fuel + 1, s =>
    match generateSoilStoryAttempt env soilData s with
    | (.ok value, s1) => some (.ok value, s1)
    | (.error e, s1) =>
      if e.status = some 401 then
        match forceRefreshToken env s1 with
        | (.error _, s2) => some (.error (storyError e), s2)
        | (.ok _, s2) =>
          match generateSoilStory env soilData fuel s2 with
          | none => none
          | some (.ok value, s3) => some (.ok value, s3)
          | some (.error _, s3) => some (.error (storyError e), s3)
      else
        some (.error (storyError e), s1)

/-! ## `ttsService.js` -/

/-- Remove the entry of a path (`fs.unlink`). -/
def removeFile (files : Files) (path : String) : Files :=
  files.filter (fun entry => entry.1 != path)

/-- Create or replace the file at a path with the given content. -/
def writeFile (files : Files) (path : String) (content : List Nat) : Files :=
  (path, content) :: removeFile files path

/-- The content of the file at a path. -/
def readFile (files : Files) (path : String) : Option (List Nat) :=
  (files.find? (fun entry => entry.1 == path)).map (fun entry => entry.2)

/-- The function `path.join` for a directory and a file name. -/
def joinPath (dir name : String) : String := dir ++ "/" ++ name

/-- The wrapping done by the `catch` of `generateAudio`. -/
def audioError (message : String) : JsError :=
  { message := "Failed to generate audio: " ++ message, status := none }

/-- The download loop of `generateAudio`, from chunk index `i` on: each URL is
fetched in turn and the body of its response, whatever the status, is written
to a chunk file of its own; the first request error removes that chunk file
and ends the loop with the error's message.  `chunkFiles` accumulates the
paths pushed so far.  `none` means that the loop never ends: the promise of a
download whose response breaks off is never settled, so the `await` on it
never resumes. -/
def downloadChunks (env : Env) :
    List String → Nat → List String → State →
      Option (Except String (List String) × State)
  | [], _, chunkFiles, s => some (.ok chunkFiles, s)
  | url :: rest, i, chunkFiles, s =>
    let chunkFileName := "chunk_" ++ toString i ++ "_" ++ env.uuid s.uuidCalls ++ ".mp3"
    let chunkPath := joinPath env.audioDir chunkFileName
    let s1 := { s with uuidCalls := s.uuidCalls + 1, downloads := s.downloads + 1 }
    match env.download s.downloads url with
    | .requestError message =>
      some (.error message, { s1 with files := removeFile s1.files chunkPath })
    | .response _ body =>
      downloadChunks env rest (i + 1) (chunkFiles ++ [chunkPath])
        { s1 with files := writeFile s1.files chunkPath body }
    | .brokenResponse _ _ => none

/-- The step that turns the first chunk into the output file:
`fs.renameSync`, and `fs.copyFileSync` when the rename throws.  The result is
the message of the error that escapes, if one does. -/
def installFirstChunk (env : Env) (first outputPath : String) (files : Files) :
    Except String Files :=
  if first = outputPath then .ok files
  else
    match readFile files first with
    | none => .error ("ENOENT: no such file or directory, copyfile " ++ first)
    | some content =>
      if env.renameFails then
        match env.copyError with
        | some message => .error message
        | none => .ok (writeFile files outputPath content)
      else
        .ok (writeFile (removeFile files first) outputPath content)

/-- The loop that deletes the chunk files after the first one; a failing
`fs.unlinkSync` is logged and skipped. -/
def deleteChunks (env : Env) (chunkFiles : List String) (files : Files) : Files :=
  chunkFiles.foldl
    (fun current path => if env.unlinkFails path then current else removeFile current path)
    files

/-- The function `generateAudio`: the relative path of the generated audio
file, or the wrapped error.  `none` means that the call never returns (the
download loop never ends). -/
def generateAudio (env : Env) (text : Option Json) (s : State) :
    Option (Except JsError String × State) :=
  let fileName := "soil_story_" ++ env.uuid s.uuidCalls ++ ".mp3"
  let outputPath := joinPath env.audioDir fileName
  let s1 := { s with uuidCalls := s.uuidCalls + 1 }
  match env.ttsSplit text with
  | .error message => some (.error (audioError message), s1)
  | .ok audioURLs =>
    match downloadChunks env audioURLs 0 [] s1 with
    | none => none
    | some (.error message, s2) => some (.error (audioError message), s2)
    | some (.ok [], s2) => some (.error (audioError "No audio chunks were generated"), s2)
    | some (.ok (first :: others), s2) =>
      match installFirstChunk env first outputPath s2.files with
      | .error message => some (.error (audioError message), s2)
      | .ok files =>
        some (.ok ("/audio/" ++ fileName),
          { s2 with files := deleteChunks env others files })

/-! ## `soilController.js` -/

/-- A field of the request body: absent (`undefined` or `null`), a number, or
a string. -/
inductive Field where
  | missing
  | num (x : JsNum)
  | str (s : String)
  deriving DecidableEq

/-- The request body read by `generateStory`. -/
structure Request where
  pH : Field
  moisture : Field
  base64Image : Option String

/-- The analysis object of a success response (`none` is `undefined`). -/
structure Analysis where
  soil_health : Option Json
  issues : Option Json
  recommendations : Option Json
  suitable_plants : Option Json

/-- The JSON body of a response. -/
inductive ResponseBody where
  | error (message : String)
  | story (story : Option Json) (audioUri : String) (analysis : Analysis)

/-- An HTTP response: `res.status(status).json(body)`. -/
structure Response where
  status : Nat
  body : ResponseBody

/-- The constant `USE_MOCK_SERVICE`. -/
def USE_MOCK_SERVICE : Bool := false

/-- The test `!x` on a request field: `undefined`, `0`, `NaN` and the empty
string are falsy. -/
def Field.isFalsy : Field → Bool
  | .missing => true
  | .num .nan => true
  | .num (.fin q) => decide (q = 0)
  | .num _ => false
  | .str s => decide (s = "")

/-- The call `parseFloat(x)` on a request field: `NaN` for `undefined`, the
number itself for a number, the built-in on a string. -/
def parseField (env : Env) : Field → JsNum
  | .missing => .nan
  | .num x => x
  | .str s => env.parseFloat s

/-- The built-in `isNaN` on a number. -/
def JsNum.isNaN : JsNum → Bool
  | .nan => true
  | _ => false

/-- The comparison `a < b` of two numbers (false when either is `NaN`). -/
def JsNum.lt : JsNum → JsNum → Bool
  | .nan, _ => false
  | _, .nan => false
  | _, .negInf => false
  | .negInf, _ => true
  | .posInf, _ => false
  | .fin _, .posInf => true
  | .fin a, .fin b => decide (a < b)

/-- The validation at the head of `generateStory`: the 400 response it
returns, or the two parsed numbers. -/
def validateRequest (env : Env) (req : Request) : Except Response (JsNum × JsNum) :=
  if req.pH.isFalsy || req.moisture.isFalsy then
    .error { status := 400,
             body := .error "Missing required parameters: pH and moisture are required" }
  else
    let parsedPH := parseField env req.pH
    let parsedMoisture := parseField env req.moisture
    if parsedPH.isNaN || parsedPH.lt (.fin 0) || JsNum.lt (.fin 14) parsedPH then
      .error { status := 400,
               body := .error "Invalid pH value: must be a number between 0 and 14" }
    else if parsedMoisture.isNaN || parsedMoisture.lt (.fin 0) ||
        JsNum.lt (.fin 100) parsedMoisture then
      .error { status := 400,
               body := .error "Invalid moisture value: must be a percentage between 0 and 100" }
    else
      .ok (parsedPH, parsedMoisture)

/-- The image block of `generateStory`: a non-empty `base64Image` is decoded
and written under the upload directory with a name taken from the clock.  The
result is the `imageAnalysis` text, or the message of the write error. -/
def processImage (env : Env) (base64Image : Option String) (s : State) :
    Except String String × State :=
  match base64Image with
  | none => (.ok "", s)
  | some image =>
    if image = "" then (.ok "", s)
    else
      let imageName := "soil_" ++ toString (env.clock s.clockReads) ++ ".jpg"
      let imagePath := joinPath env.uploadDir imageName
      let s1 := { s with clockReads := s.clockReads + 1 }
      match env.imageWriteError with
      | some message => (.error message, s1)
      | none =>
        (.ok "a soil sample with visible texture and coloration",
          { s1 with files := writeFile s1.files imagePath (env.base64Decode image) })

/-- Property access `value[key]` on a parsed JSON value that is not `null`:
the member of an object, `undefined` for anything else. -/
def Json.prop (value : Json) (key : String) : Option Json :=
  match value with
  | .obj members => (members.find? (fun member => member.1 == key)).map (fun member => member.2)
  | _ => none

/-- The 500 response of the `catch` of `generateStory`. -/
def serverError (message : String) : Response :=
  { status := 500, body := .error ("Failed to generate soil story: " ++ message) }

/-- The controller `generateStory`.  `USE_MOCK_SERVICE` is `false`, so the
story comes from `generateSoilStory`; `none` means that no response is sent:
the fuel of `generateSoilStory` ran out, or `generateAudio` never returns. -/
def generateStory (env : Env) (req : Request) (fuel : Nat) (s : State) :
    Option (Response × State) :=
  match validateRequest env req with
  | .error response => some (response, s)
  | .ok (parsedPH, parsedMoisture) =>
    match processImage env req.base64Image s with
    | (.error message, s1) => some (serverError message, s1)
    | (.ok imageAnalysis, s1) =>
      let soilData : SoilData :=
        { pH := env.numberToString parsedPH
          moisture := env.numberToString parsedMoisture
          imageAnalysis := imageAnalysis }
      match generateSoilStory env soilData fuel { s1 with storyCalls := s1.storyCalls + 1 } with
      | none => none
      | some (.error e, s2) => some (serverError e.message, s2)
      | some (.ok .null, s2) =>
        some (serverError "Cannot read properties of null (reading 'story')", s2)
      | some (.ok storyData, s2) =>
        match generateAudio env (storyData.prop "story")
            { s2 with audioCalls := s2.audioCalls + 1 } with
        | none => none
        | some (.error e, s3) => some (serverError e.message, s3)
        | some (.ok audioUri, s3) =>
          some ({ status := 200,
                  body := .story (storyData.prop "story") audioUri
                    { soil_health := storyData.prop "soil_health"
                      issues := storyData.prop "issues"
                      recommendations := storyData.prop "recommendations"
                      suitable_plants := storyData.prop "suitable_plants" } }, s3)

/-! ## `mockGraniteService.js` -/

/-- The comparison `a <= b` of two numbers (false when either is `NaN`). -/
def JsNum.le : JsNum → JsNum → Bool
  | .nan, _ => false
  | _, .nan => false
  | .negInf, _ => true
  | _, .posInf => true
  | .posInf, _ => false
  | _, .negInf => false
  | .fin a, .fin b => decide (a ≤ b)

/-- The object `soil_health` of the mock result. -/
structure SoilHealth where
  score : Nat
  category : String
  max_score : Nat
  deriving DecidableEq, Repr

/-- An entry of `issues`. -/
structure Issue where
  description : String
  severity : String
  deriving DecidableEq, Repr

/-- An entry of `recommendations`. -/
structure Recommendation where
  action : String
  details : String
  deriving DecidableEq, Repr

/-- The object returned by `generateMockSoilStory`. -/
structure MockStory where
  story : String
  soil_health : SoilHealth
  issues : List Issue
  recommendations : List Recommendation
  suitable_plants : List String
  deriving DecidableEq, Repr

/-- The pH scoring chain: the points added to `score` for the pH. -/
def pHPoints (pHValue : JsNum) : Nat :=
  if JsNum.le (.fin 6) pHValue && JsNum.le pHValue (.fin (15 / 2)) then 50
  else if JsNum.le (.fin (11 / 2)) pHValue && JsNum.lt pHValue (.fin 6) then 40
  else if JsNum.lt (.fin (15 / 2)) pHValue && JsNum.le pHValue (.fin 8) then 40
  else if JsNum.le (.fin 5) pHValue && JsNum.lt pHValue (.fin (11 / 2)) then 30
  else if JsNum.lt (.fin 8) pHValue && JsNum.le pHValue (.fin (17 / 2)) then 30
  else 20

/-- The moisture scoring chain: the points added to `score` for the moisture. -/
def moisturePoints (moistureValue : JsNum) : Nat :=
  if JsNum.le (.fin 40) moistureValue && JsNum.le moistureValue (.fin 60) then 50
  else if JsNum.le (.fin 30) moistureValue && JsNum.lt moistureValue (.fin 40) then 40
  else if JsNum.lt (.fin 60) moistureValue && JsNum.le moistureValue (.fin 70) then 40
  else if JsNum.le (.fin 20) moistureValue && JsNum.lt moistureValue (.fin 30) then 30
  else if JsNum.lt (.fin 70) moistureValue && JsNum.le moistureValue (.fin 80) then 30
  else 20

/-- The category chain on the score. -/
def categoryOf (score : Nat) : String :=
  if score ≥ 90 then "excellent"
  else if score ≥ 70 then "good"
  else if score ≥ 50 then "fair"
  else if score ≥ 30 then "poor"
  else "very poor"

/-- The list `issues` before `splice(3)`. -/
def mockIssues (pHValue moistureValue : JsNum) : List Issue :=
  (if JsNum.lt pHValue (.fin 6) then
    [{ description := "Acidic soil may limit nutrient availability, particularly phosphorus, calcium, and magnesium",
       severity := if JsNum.lt pHValue (.fin 5) then "high" else "medium" }]
   else []) ++
  (if JsNum.lt (.fin (15 / 2)) pHValue then
    [{ description := "Alkaline soil may cause deficiencies of micronutrients like iron, manganese, and zinc",
       severity := if JsNum.lt (.fin 8) pHValue then "high" else "medium" }]
   else []) ++
  (if JsNum.lt moistureValue (.fin 30) then
    [{ description := "Soil is too dry, which will stress most plants and reduce microbial activity",
       severity := if JsNum.lt moistureValue (.fin 20) then "high" else "medium" }]
   else []) ++
  (if JsNum.lt (.fin 70) moistureValue then
    [{ description := "Soil is too wet, which may lead to root rot and anaerobic conditions",
       severity := if JsNum.lt (.fin 80) moistureValue then "high" else "medium" }]
   else [])

/-- The list `recommendations` before `splice(4)`. -/
def mockRecommendations (pHValue moistureValue : JsNum) : List Recommendation :=
  (if JsNum.lt pHValue (.fin 6) then
    [{ action := "Add garden lime",
       details := "Apply agricultural lime to raise soil pH. Typically 50g per square meter will raise pH by about 0.5 units." }]
   else []) ++
  (if JsNum.lt (.fin (15 / 2)) pHValue then
    [{ action := "Add sulfur or acidic organic matter",
       details := "Add elemental sulfur or acidic organic materials like pine needles and oak leaves to lower soil pH gradually." }]
   else []) ++
  (if JsNum.lt moistureValue (.fin 30) then
    [{ action := "Improve water retention",
       details := "Add organic matter like compost to improve water retention and apply mulch to reduce evaporation." }]
   else []) ++
  (if JsNum.lt (.fin 70) moistureValue then
    [{ action := "Improve drainage",
       details := "Add coarse sand or perlite to improve drainage. Consider raised beds for severe cases." }]
   else []) ++
  [{ action := "Add compost regularly",
     details := "Work in 1-2 inches of compost annually to improve soil structure, nutrient content, and microbial activity." }]

/-- The list `suitablePlants`: the pH-based suggestions followed by the
moisture-based ones. -/
def suitablePlants (pHValue moistureValue : JsNum) : List String :=
  (if JsNum.lt pHValue (.fin 6) then
    ["blueberries", "azaleas", "rhododendrons", "camellias"]
   else if JsNum.le (.fin 6) pHValue && JsNum.le pHValue (.fin 7) then
    ["tomatoes", "peppers", "beans", "cucumbers", "strawberries"]
   else
    ["lavender", "thyme", "rosemary", "clematis"]) ++
  (if JsNum.lt moistureValue (.fin 30) then
    ["succulents", "lavender", "yarrow", "sage"]
   else if JsNum.le (.fin 30) moistureValue && JsNum.le moistureValue (.fin 60) then
    ["zinnias", "marigolds", "cosmos", "sunflowers"]
   else
    ["iris", "ferns", "hostas", "astilbe"])

/-- The elements of a list in insertion order without repetition, added to
those already seen: `[...new Set(xs)]` is `insertionOrder [] xs`. -/
def insertionOrder (seen : List String) : List String → List String
  | [] => seen
  | x :: xs => if x ∈ seen then insertionOrder seen xs else insertionOrder (seen ++ [x]) xs

/-- The text `story` built by the mock generator. -/
def mockStoryText (pH moisture imageAnalysis : String) (pHValue moistureValue : JsNum)
    (score : Nat) : String :=
  "Your soil has a story to tell, and it's one of " ++ categoryOf score ++
    " potential. With a pH of " ++ pH ++ ", " ++
  (if JsNum.lt pHValue (.fin 6) then
    "your soil is on the acidic side. This acidic nature was likely developed over time as organic matter decomposed and released acids into the soil. "
   else if JsNum.lt (.fin (15 / 2)) pHValue then
    "your soil leans toward alkalinity. This often indicates the presence of limestone or calcium-rich parent material in your region's geology. "
   else
    "your soil has a nearly neutral pH, providing an excellent balance for nutrient availability. This balanced pH suggests a history of good organic matter management. ") ++
  "The moisture level of " ++ moisture ++ "% " ++
  (if JsNum.lt moistureValue (.fin 30) then
    "indicates a relatively dry soil environment. This soil likely drains quickly, which can be beneficial for some plants but challenging for others. "
   else if JsNum.lt (.fin 70) moistureValue then
    "reveals a soil that retains significant moisture. This suggests clay content or good organic matter, though it may pose drainage challenges. "
   else
    "shows a well-balanced water content—neither too dry nor overly saturated. This ideal moisture level supports diverse microbial life and provides a comfortable environment for plant roots. ") ++
  "Soil is not just dirt—it's a living ecosystem with billions of microorganisms working together. " ++
  (if score ≥ 70 then
    "Your soil appears to have a healthy ecosystem supporting these microorganisms, creating a welcoming environment for plants. The nutrients in your soil interact in complex ways, with minerals binding and releasing based on your specific pH and moisture levels. "
   else
    "Your soil ecosystem may be facing some challenges that affect how nutrients are cycled and made available to plants. The balance of nutrients can be improved through thoughtful amendments tailored to your soil's specific needs. ") ++
  (if imageAnalysis = "" then ""
   else
    "The visual examination of your soil sample reveals " ++ imageAnalysis ++
      ", which aligns with the measured pH and moisture values. ") ++
  "With proper care and attention to its specific needs, your soil can become even more vibrant and productive, supporting a wide range of plant life while sequestering carbon and supporting biodiversity for years to come."

/-- The function `generateMockSoilStory`. -/
def generateMockSoilStory (env : Env) (soilData : SoilData) : MockStory :=
  let pHValue := env.parseFloat soilData.pH
  let moistureValue := env.parseFloat soilData.moisture
  let score := 0 + pHPoints pHValue + moisturePoints moistureValue
  { story := mockStoryText soilData.pH soilData.moisture soilData.imageAnalysis
      pHValue moistureValue score
    soil_health := { score := score, category := categoryOf score, max_score := 100 }
    issues := (mockIssues pHValue moistureValue).take 3
    recommendations := (mockRecommendations pHValue moistureValue).take 4
    suitable_plants := (insertionOrder [] (suitablePlants pHValue moistureValue)).take 6 }

/-! ## `ResultScreen.js`: the playback controller

`ResultScreen` is a function component.  Every render runs the function body
again, so the functions defined in it (`loadSound`, `handleAppStateChange`)
read the values of `sound`, `position`, `retryCount` that their own render
obtained from `useState`; a `setX` call changes what the next render obtains,
not what an existing function reads.  Here `closure` stands for the state
values a function's render saw, and the `state` of a `Player` for the current
React state.  `useRef` values are shared by all renders. -/

/-- The `useState` values of `ResultScreen` used by the playback code. -/
structure PlayerState where
  /-- The state `sound`: the handle of the loaded sound (`none` is `undefined`). -/
  sound : Option Nat
  isPlaying : Bool
  isLoading : Bool
  audioError : Option String
  /-- The state `position`, in milliseconds. -/
  position : Int
  /-- The state `duration`, in milliseconds. -/
  duration : Int
  retryCount : Nat
  isBuffering : Bool
  deriving DecidableEq, Repr

/-- The initial `useState` values: what the first render sees. -/
def PlayerState.initial : PlayerState :=
  { sound := none, isPlaying := false, isLoading := true, audioError := none,
    position := 0, duration := 0, retryCount := 0, isBuffering := false }

/-- The playback status object of expo-av, as far as the code reads it. -/
structure PlaybackStatus where
  isLoaded : Bool
  positionMillis : Int
  /-- `none` is an absent `durationMillis`. -/
  durationMillis : Option Int
  isPlaying : Bool
  isBuffering : Bool
  didJustFinish : Bool
  isLooping : Bool
  error : Option String
  deriving DecidableEq, Repr

/-- The values of `AppState`. -/
inductive AppStatus where
  | active
  | inactive
  | background
  | other
  deriving DecidableEq, Repr

/-- The test `x.match(/inactive|background/)` on an app state. -/
def AppStatus.isAway : AppStatus → Bool
  | .inactive => true
  | .background => true
  | _ => false

/-- What the device answers to the playback code, each kind of call numbered
in the order the calls are made. -/
structure Device where
  /-- The value `fullAudioUri`. -/
  fullAudioUri : String
  /-- The field `isConnected` of the `k`-th `NetInfo.fetch()`. -/
  netConnected : Nat → Bool
  /-- The message of the error the `k`-th `Audio.Sound.createAsync` rejects
  with, if it rejects. -/
  createAsync : Nat → Option String
  /-- Outcome of the `k`-th `getStatusAsync`: the message of the error, or the
  status. -/
  getStatusAsync : Nat → Except String PlaybackStatus
  /-- The message of the error the `k`-th `pauseAsync` rejects with, if any. -/
  pauseAsync : Nat → Option String
  /-- The message of the error the `k`-th `unloadAsync` rejects with, if any. -/
  unloadAsync : Nat → Option String
  /-- The message of the error the `k`-th `setPositionAsync` rejects with, if
  any. -/
  setPositionAsync : Nat → Option String := fun _ => none

/-- A pending `setTimeout(() => loadSound(), delay)`: the delay and the state
values seen by the render whose `loadSound` the callback calls. -/
structure Timer where
  delay : Nat
  closure : PlayerState
  deriving DecidableEq, Repr

/-- Everything of the screen that outlives a render, with ghost logs. -/
structure Player where
  /-- The current React state. -/
  state : PlayerState
  /-- The ref `appStateRef.current`. -/
  appState : AppStatus
  /-- Pending timers, oldest first. -/
  timers : List Timer
  /-- The delays of all `setTimeout` calls so far, in order. -/
  scheduled : List Nat
  /-- The `positionMillis` option of every `createAsync` call so far, in order. -/
  created : List Int
  /-- The handles passed to `unloadAsync` so far, in order. -/
  unloaded : List Nat
  /-- Number of `NetInfo.fetch()` calls so far. -/
  netFetches : Nat
  /-- Number of `getStatusAsync` calls so far. -/
  statusCalls : Nat
  /-- Number of `pauseAsync` calls so far. -/
  pauseCalls : Nat
  /-- The values passed to `setPositionAsync` so far, in order. -/
  seeks : List Int := []
  deriving DecidableEq, Repr

/-- The screen right after its first render. -/
def Player.initial : Player :=
  { state := PlayerState.initial, appState := .active, timers := [], scheduled := [],
    created := [], unloaded := [], netFetches := 0, statusCalls := 0, pauseCalls := 0 }

/-- The `catch` block of `loadSound`: the error state, and, while the
`retryCount` seen by the function is below 3, one more retry of the same
function after `2 ^ retryCount * 1000` milliseconds. -/
def loadFailed (closure : PlayerState) (message : String) (w : Player) : Player :=
  let st := { w.state with isLoading := false, isBuffering := false,
                           audioError := some ("Error loading audio: " ++ message) }
  if closure.retryCount < 3 then
    let backoffTime := 2 ^ closure.retryCount * 1000
    { w with state := { st with retryCount := closure.retryCount + 1 }
             timers := w.timers ++ [{ delay := backoffTime, closure := closure }]
             scheduled := w.scheduled ++ [backoffTime] }
  else
    { w with state := st }

/-- The part of `loadSound` from `Audio.Sound.createAsync` on: the sound is
created at `position` if that is positive and at 0 otherwise, stored with
`setSound`, and its initial status read. -/
def createSound (dev : Device) (closure : PlayerState) (w : Player) : Player :=
  let positionMillis := if closure.position > 0 then closure.position else 0
  let newSound := w.created.length
  let w1 := { w with created := w.created ++ [positionMillis] }
  match dev.createAsync newSound with
  | some message => loadFailed closure message w1
  | none =>
    let w2 := { w1 with state := { w1.state with sound := some newSound, isLoading := false }
                        statusCalls := w1.statusCalls + 1 }
    match dev.getStatusAsync w1.statusCalls with
    | .error message => loadFailed closure message w2
    | .ok initialStatus =>
      if initialStatus.isLoaded then
        { w2 with state := { w2.state with duration := initialStatus.durationMillis.getD 0,
                                           isBuffering := false } }
      else w2

/-- The function `loadSound` of the render that saw `closure`. -/
def loadSound (dev : Device) (closure : PlayerState) (w : Player) : Player :=
  if dev.fullAudioUri = "" then
    { w with state := { w.state with audioError := some "No audio available",
                                     isLoading := false, isBuffering := false } }
  else
    let w1 := { w with state := { w.state with isLoading := true, audioError := none }
                       netFetches := w.netFetches + 1 }
    if !dev.netConnected w.netFetches then
      loadFailed closure
        "No internet connection. Please check your connection and try again." w1
    else
      match closure.sound with
      | none => createSound dev closure w1
      | some handle =>
        let w2 := { w1 with unloaded := w1.unloaded ++ [handle] }
        match dev.unloadAsync w1.unloaded.length with
        | some message => loadFailed closure message w2
        | none => createSound dev closure w2

/-- The function `handleAppStateChange` of the render that saw `closure`.
The refs `soundRef` and `isPlayingRef` are copied from the state after every
render, so they are read from the current state. -/
def handleAppStateChange (dev : Device) (closure : PlayerState) (nextAppState : AppStatus)
    (w : Player) : Player :=
  let w1 :=
    if w.appState = .active ∧ nextAppState.isAway = true then
      if w.state.sound.isSome ∧ w.state.isPlaying = true then
        let w0 := { w with statusCalls := w.statusCalls + 1 }
        match dev.getStatusAsync w.statusCalls with
        | .error _ => w0
        | .ok status =>
          if status.isLoaded then
            let w2 := { w0 with state := { w0.state with position := status.positionMillis }
                                pauseCalls := w0.pauseCalls + 1 }
            match dev.pauseAsync w0.pauseCalls with
            | some _ => w2
            | none => { w2 with state := { w2.state with isPlaying := false } }
          else w0
      else w
    else if w.appState.isAway = true ∧ nextAppState = .active then
      if w.state.sound.isSome then
        let w0 := { w with statusCalls := w.statusCalls + 1 }
        match dev.getStatusAsync w.statusCalls with
        | .error _ => loadSound dev closure w0
        | .ok status => if !status.isLoaded then loadSound dev closure w0 else w0
      else w
    else w
  { w1 with appState := nextAppState }

/-- The load started on mount: the effect keyed on `fullAudioUri` runs after
the first render and calls that render's `loadSound`. -/
def mountLoad (dev : Device) (w : Player) : Player :=
  if dev.fullAudioUri = "" then w else loadSound dev PlayerState.initial w

/-- The app-state listener: the effect with an empty dependency list registers
the first render's `handleAppStateChange` once, for the life of the screen. -/
def appStateListener (dev : Device) (nextAppState : AppStatus) (w : Player) : Player :=
  handleAppStateChange dev PlayerState.initial nextAppState w

/-- The oldest pending timer fires: its callback calls the `loadSound` it was
created with. -/
def fireTimer (dev : Device) (w : Player) : Player :=
  match w.timers with
  | [] => w
  | timer :: rest => loadSound dev timer.closure { w with timers := rest }

/-- The screen after the mount load and `n` further timer firings. -/
def afterRetries (dev : Device) : Nat → Player
  | 0 => mountLoad dev Player.initial
  | n + 1 => fireTimer dev (afterRetries dev n)

/-- Where a `loadSound` call stands after running up to its first `await`. -/
inductive LoadStep where
  /-- The call returned without suspending (there is no audio URI). -/
  | done
  /-- The call is suspended on `NetInfo.fetch()` number `request`. -/
  | awaitingNetInfo (request : Nat)
  deriving DecidableEq, Repr

/-- First segment of `loadSound`: from entry to `await NetInfo.fetch()`.  It
reads none of the state values of its render. -/
def loadSoundBegin (dev : Device) (w : Player) : LoadStep × Player :=
  if dev.fullAudioUri = "" then
    (.done, { w with state := { w.state with audioError := some "No audio available",
                                             isLoading := false, isBuffering := false } })
  else
    (.awaitingNetInfo w.netFetches,
      { w with state := { w.state with isLoading := true, audioError := none }
               netFetches := w.netFetches + 1 })

/-- Second segment of `loadSound`, of the render that saw `closure`: from the
settled `NetInfo.fetch()` number `request` to the return. -/
def loadSoundResume (dev : Device) (closure : PlayerState) (request : Nat) (w : Player) :
    Player :=
  if !dev.netConnected request then
    loadFailed closure
      "No internet connection. Please check your connection and try again." w
  else
    match closure.sound with
    | none => createSound dev closure w
    | some handle =>
      let w1 := { w with unloaded := w.unloaded ++ [handle] }
      match dev.unloadAsync w.unloaded.length with
      | some message => loadFailed closure message w1
      | none => createSound dev closure w1

/-- The function `retryAudio`: it resets the attempt counter and calls
`loadSound` without awaiting it.  The result is the screen when `retryAudio`
returns, with the step at which the load it started stands. -/
def retryAudio (dev : Device) (w : Player) : LoadStep × Player :=
  loadSoundBegin dev { w with state := { w.state with retryCount := 0 } }

/-- Truthiness of a string-or-null value: a non-empty string. -/
def isTruthyText (value : Option String) : Bool :=
  match value with
  | some text => text != ""
  | none => false

/-- The listener given to `NetInfo.addEventListener` by the render that saw
`closure` (the effect is keyed on `audioError` and `retryCount`), called with a
connectivity state whose `isConnected` is given.  `setNetworkStatus` only feeds
the display and is left out. -/
def netInfoListener (dev : Device) (closure : PlayerState) (isConnected : Bool)
    (w : Player) : LoadStep × Player :=
  if isConnected = true ∧ isTruthyText closure.audioError = true ∧ closure.retryCount < 3 then
    retryAudio dev w
  else
    (.done, w)

/-- The function `seekAudio` of the render that saw `closure`. -/
def seekAudio (dev : Device) (closure : PlayerState) (value : Int) (w : Player) : Player :=
  match closure.sound with
  | none => w
  | some _ =>
    let w1 := { w with seeks := w.seeks ++ [value] }
    match dev.setPositionAsync w.seeks.length with
    | some _ => w1
    | none => { w1 with state := { w1.state with position := value } }

/-- The rewind control: `seekAudio(Math.max(0, position - 10000))`. -/
def rewindPress (dev : Device) (closure : PlayerState) (w : Player) : Player :=
  seekAudio dev closure (max 0 (closure.position - 10000)) w

/-- The forward control: `seekAudio(Math.min(duration, position + 10000))`. -/
def forwardPress (dev : Device) (closure : PlayerState) (w : Player) : Player :=
  seekAudio dev closure (min closure.duration (closure.position + 10000)) w

/-- The callback `onPlaybackStatusUpdate` of the render that saw `closure`. -/
def onPlaybackStatusUpdate (closure : PlayerState) (status : PlaybackStatus) (w : Player) :
    Player :=
  if status.isLoaded then
    let st1 := { w.state with position := status.positionMillis,
                              duration := status.durationMillis.getD 0 }
    let st2 := if status.isBuffering != closure.isBuffering then
      { st1 with isBuffering := status.isBuffering } else st1
    let st3 := { st2 with isPlaying := status.isPlaying }
    if status.didJustFinish && !status.isLooping then
      { w with state := { st3 with isPlaying := false, position := 0, isBuffering := false } }
    else
      { w with state := st3 }
  else
    match status.error with
    | some message =>
      if message = "" then w
      else { w with state := { w.state with audioError := some ("Playback error: " ++ message),
                                            isBuffering := false } }
    | none => w

/-! ## Vocabulary of the statements -/

/-- A usable token is cached: a non-empty token whose expiry lies more than
five minutes after `now`. -/
def CacheFresh (s : State) (now : Int) : Prop :=
  ∃ tok expiresAt, s.cachedToken = some tok ∧ tok ≠ "" ∧
    s.tokenExpiration = some expiresAt ∧ now + 5 * 60 * 1000 < expiresAt

/-- The API key `IBM_API_KEY` is set to a non-empty value. -/
def ApiKeyConfigured (env : Env) : Prop :=
  ∃ key, env.apiKey = some key ∧ key ≠ ""

/-- What a caller receives from a settled token request: the token of the
response, or the wrapped error. -/
def tokenOfReply (reply : IamReply) : Except JsError String :=
  match readIamReply reply with
  | .error e => .error e
  | .ok (tok, _) => .ok tok

/-- A parsed number is not a number, or lies outside the closed interval from
`lo` to `hi`. -/
def OutsideRange (x : JsNum) (lo hi : ℚ) : Prop :=
  match x with
  | .fin q => q < lo ∨ hi < q
  | _ => True

instance (x : JsNum) (lo hi : ℚ) : Decidable (OutsideRange x lo hi) :=
  match x with
  | .fin q => inferInstanceAs (Decidable (q < lo ∨ hi < q))
  | .nan => isTrue trivial
  | .posInf => isTrue trivial
  | .negInf => isTrue trivial

/-- A requested position `v` clamped into the interval from 0 to `d`: 0 when
`v < 0`, `d` when `v > d`, and `v` otherwise. -/
def clampPosition (v d : Int) : Int :=
  if v < 0 then 0 else if v > d then d else v

/-- The message of the error a provider reply raises inside
`generateSoilStory`, for the failures that are not an HTTP 401 response: a
network error or another status (the message of the axios error), a response
without results, an absent, empty or whitespace-only generated text, and a
text that parses neither as a whole nor through its brace-delimited span.
`none` for a 401 response and for a reply whose text parses. -/
def nonAuthFailureMessage (env : Env) : ProviderReply → Option String
  | .networkError message => some message
  | .httpError status message => if status = 401 then none else some message
  | .ok none => some "Invalid or empty response structure from IBM API"
  | .ok (some none) => some "Empty response from IBM Granite API"
  | .ok (some (some text)) =>
    if text.toList.all isTrimmed then some "Empty response from IBM Granite API"
    else if (env.jsonParse text).isNone ∧ ((extractJson text).bind env.jsonParse).isNone then
      some "Failed to parse the generated soil story"
    else none

/-! ## Sample environments -/

/-- An environment in which every collaborator answers and nothing fails: the
identity provider issues `token-k` for its `k`-th request, valid for an hour;
the inference provider returns the text of an empty JSON object. -/
def sampleEnv : Env :=
  { apiKey := some "key"
    clock := fun _ => 1000
    iam := fun k => .ok (some ("token-" ++ toString k)) (some 3600)
    provider := fun _ _ => .ok (some (some "\x7b\x7d"))
    jsonParse := fun text => if text = "\x7b\x7d" then some (.obj []) else none
    parseFloat := fun _ => .nan
    numberToString := fun _ => ""
    audioDir := "audio"
    uploadDir := "uploads"
    uuid := fun k => "id" ++ toString k
    ttsSplit := fun _ => .ok ["u0", "u1"]
    download := fun _ url => if url = "u0" then .response 200 [1] else .response 200 [2]
    renameFails := false
    copyError := none
    unlinkFails := fun _ => false
    base64Decode := fun _ => []
    imageWriteError := none }

/-- The sample environment without an API key. -/
def noKeyEnv : Env := { sampleEnv with apiKey := none }

/-- The sample environment with an inference provider that answers its first
two requests with HTTP 401 and every later one with the text of an empty JSON
object. -/
def unauthorizedTwiceEnv : Env :=
  { sampleEnv with
    provider := fun k _ =>
      if k < 2 then .httpError 401 "Request failed with status code 401"
      else .ok (some (some "\x7b\x7d")) }

/-- The sample environment with an inference provider that answers its first
request with HTTP 401 and every later one with the text of an empty JSON
object. -/
def unauthorizedOnceEnv : Env :=
  { sampleEnv with
    provider := fun k _ =>
      if k < 1 then .httpError 401 "Request failed with status code 401"
      else .ok (some (some "\x7b\x7d")) }

/-- The sample environment with an inference provider that always answers
with prose that holds no JSON. -/
def proseEnv : Env :=
  { sampleEnv with provider := fun _ _ => .ok (some (some "The soil is fine.")) }

/-- The sample environment with an inference provider that always answers
with a JSON object wrapped in prose. -/
def wrappedJsonEnv : Env :=
  { sampleEnv with
    provider := fun _ _ => .ok (some (some ("Here it is: " ++ "\x7b\x7d" ++ " Enjoy."))) }

/-- The sample environment with an identity provider that cannot be reached. -/
def iamDownEnv : Env :=
  { sampleEnv with iam := fun _ => .failure "connect ECONNREFUSED" }

/-- The sample environment with an inference provider that always answers
with a single space. -/
def blankEnv : Env :=
  { sampleEnv with provider := fun _ _ => .ok (some (some " ")) }

/-- The sample environment with an inference provider that always answers
with the text `42`, which `JSON.parse` reads as the number 42. -/
def numberEnv : Env :=
  { sampleEnv with
    provider := fun _ _ => .ok (some (some "42"))
    jsonParse := fun text => if text = "42" then some (.num 42 0) else none }

/-- The sample environment with a speech endpoint whose first download
succeeds and whose later downloads fail with a request error. -/
def secondDownloadFailsEnv : Env :=
  { sampleEnv with
    download := fun k _ =>
      if k = 0 then .response 200 [1] else .requestError "socket hang up" }

/-- The bytes of the text `<h1>`, standing for the page of an error reply. -/
def errorPage : List Nat := [60, 104, 49, 62]

/-- The sample environment with a speech endpoint that answers the first
download with status 500 and an error page, and every later download with
status 200 and the audio `[2]`. -/
def errorStatusEnv : Env :=
  { sampleEnv with
    download := fun k _ => if k = 0 then .response 500 errorPage else .response 200 [2] }

/-- The sample environment with a speech endpoint whose first download
succeeds and whose second response breaks off after the bytes `[2]`. -/
def brokenResponseEnv : Env :=
  { sampleEnv with
    download := fun k _ =>
      if k = 0 then .response 200 [1] else .brokenResponse 200 [2] }

/-- A device without connectivity: every `NetInfo.fetch()` reports
`isConnected = false`. -/
def offlineDevice : Device :=
  { fullAudioUri := "http://192.168.0.2:3000/audio/soil_story.mp3"
    netConnected := fun _ => false
    createAsync := fun _ => none
    getStatusAsync := fun _ =>
      .ok { isLoaded := true, positionMillis := 0, durationMillis := some 60000,
            isPlaying := false, isBuffering := false, didJustFinish := false,
            isLooping := false, error := none }
    pauseAsync := fun _ => none
    unloadAsync := fun _ => none }

/-- A connected device on which the first status read (at backgrounding)
reports a loaded sound playing at position `p`, the second (at foregrounding)
reports the sound as no longer loaded, and later ones report a loaded sound. -/
def releasedDevice (p : Int) : Device :=
  { fullAudioUri := "http://192.168.0.2:3000/audio/soil_story.mp3"
    netConnected := fun _ => true
    createAsync := fun _ => none
    getStatusAsync := fun k =>
      if k = 0 then
        .ok { isLoaded := true, positionMillis := p, durationMillis := some 60000,
              isPlaying := true, isBuffering := false, didJustFinish := false,
              isLooping := false, error := none }
      else if k = 1 then
        .ok { isLoaded := false, positionMillis := 0, durationMillis := none,
              isPlaying := false, isBuffering := false, didJustFinish := false,
              isLooping := false, error := none }
      else
        .ok { isLoaded := true, positionMillis := 0, durationMillis := some 60000,
              isPlaying := false, isBuffering := false, didJustFinish := false,
              isLooping := false, error := none }
    pauseAsync := fun _ => none
    unloadAsync := fun _ => none }

/-- A screen whose sound (handle 0, created at position 0) is loaded and
playing, with the app active. -/
def playingPlayer : Player :=
  { Player.initial with
    state := { sound := some 0, isPlaying := true, isLoading := false, audioError := none,
               position := 0, duration := 60000, retryCount := 0, isBuffering := false }
    created := [0] }

/-- A connected device on which every transport call succeeds and every status
read reports a loaded, paused sound of 60 seconds. -/
def readyDevice : Device :=
  { fullAudioUri := "http://192.168.0.2:3000/audio/soil_story.mp3"
    netConnected := fun _ => true
    createAsync := fun _ => none
    getStatusAsync := fun _ =>
      .ok { isLoaded := true, positionMillis := 0, durationMillis := some 60000,
            isPlaying := false, isBuffering := false, didJustFinish := false,
            isLooping := false, error := none }
    pauseAsync := fun _ => none
    unloadAsync := fun _ => none }

/-- The state values of a render in the error state with the attempt counter
at 3. -/
def exhaustedState : PlayerState :=
  { sound := none, isPlaying := false, isLoading := false,
    audioError := some "Error loading audio: Network request failed",
    position := 0, duration := 0, retryCount := 3, isBuffering := false }

/-- A screen in the error state with the attempt counter at 3 and no timer
pending. -/
def exhaustedPlayer : Player :=
  { Player.initial with state := exhaustedState, netFetches := 4 }

/-- The state values of a render whose sound (handle 0) is loaded, 60 seconds
long and at position 5 seconds. -/
def loadedState : PlayerState :=
  { sound := some 0, isPlaying := false, isLoading := false, audioError := none,
    position := 5000, duration := 60000, retryCount := 0, isBuffering := false }

/-- A screen in the state `loadedState`. -/
def loadedPlayer : Player :=
  { Player.initial with state := loadedState, created := [0] }

/-- A `soilData` value for the examples. -/
def sampleSoil : SoilData := { pH := "6.5", moisture := "40", imageAnalysis := "" }

/-! ## Token cache -/

theorem cachedIfValid_eq_some (s : State) (now : Int) (tok : String) :
    cachedIfValid s now = some tok ↔
      s.cachedToken = some tok ∧ tok ≠ "" ∧
        ∃ expiresAt, s.tokenExpiration = some expiresAt ∧ now + 5 * 60 * 1000 < expiresAt := by
  unfold cachedIfValid EXPIRATION_BUFFER
  cases hc : s.cachedToken with
  | none => simp
  | some t =>
    cases he : s.tokenExpiration with
    | none => simp
    | some e =>
      by_cases h : t ≠ "" ∧ e > now + 5 * 60 * 1000
      · simp only [if_pos h, Option.some.injEq]
        constructor
        · rintro rfl
          exact ⟨rfl, h.1, e, rfl, h.2⟩
        · rintro ⟨h1, -, -⟩
          exact h1
      · simp only [if_neg h, Option.some.injEq]
        constructor
        · intro h1
          cases h1
        · rintro ⟨h1, h2, e2, h3, h4⟩
          subst h1
          cases h3
          exact absurd ⟨h2, h4⟩ h

theorem cacheFresh_iff (s : State) (now : Int) :
    CacheFresh s now ↔ ∃ tok, cachedIfValid s now = some tok := by
  constructor
  · rintro ⟨tok, e, h1, h2, h3, h4⟩
    exact ⟨tok, (cachedIfValid_eq_some s now tok).2 ⟨h1, h2, e, h3, h4⟩⟩
  · rintro ⟨tok, h⟩
    obtain ⟨h1, h2, e, h3, h4⟩ := (cachedIfValid_eq_some s now tok).1 h
    exact ⟨tok, e, h1, h2, h3, h4⟩

theorem cachedIfValid_eq_none (s : State) (now : Int) (h : ¬ CacheFresh s now) :
    cachedIfValid s now = none := by
  cases hv : cachedIfValid s now with
  | none => rfl
  | some tok => exact absurd ((cacheFresh_iff s now).2 ⟨tok, hv⟩) h

theorem getAccessTokenBegin_fresh (env : Env) (s : State) (tok : String)
    (h : cachedIfValid s (env.clock s.clockReads) = some tok) :
    getAccessTokenBegin env s = (.done (.ok tok), { s with clockReads := s.clockReads + 1 }) := by
  simp [getAccessTokenBegin, h]

theorem getAccessTokenBegin_stale (env : Env) (s : State)
    (h : cachedIfValid s (env.clock s.clockReads) = none) (hkey : ApiKeyConfigured env) :
    getAccessTokenBegin env s =
      (.awaiting (env.clock s.clockReads) s.iamCalls,
        { s with clockReads := s.clockReads + 1, iamCalls := s.iamCalls + 1 }) := by
  obtain ⟨key, hk, hne⟩ := hkey
  simp [getAccessTokenBegin, h, hk, hne]

theorem getAccessTokenBegin_noKey (env : Env) (s : State)
    (h : cachedIfValid s (env.clock s.clockReads) = none) (hkey : ¬ ApiKeyConfigured env) :
    getAccessTokenBegin env s =
      (.done (.error (tokenError
        "IBM API key is not configured in environment variables (IBM_API_KEY)")),
        { s with clockReads := s.clockReads + 1 }) := by
  unfold getAccessTokenBegin
  simp only [h]
  cases hk : env.apiKey with
  | none => rfl
  | some key =>
    by_cases hne : key = ""
    · simp [hne]
    · exact absurd ⟨key, hk, hne⟩ hkey

theorem getAccessTokenResume_fst (now : Int) (reply : IamReply) (s : State) :
    (getAccessTokenResume now reply s).1 = tokenOfReply reply := by
  unfold getAccessTokenResume tokenOfReply
  cases readIamReply reply with
  | error e => rfl
  | ok v => rfl

theorem getAccessTokenResume_iamCalls (now : Int) (reply : IamReply) (s : State) :
    (getAccessTokenResume now reply s).2.iamCalls = s.iamCalls := by
  unfold getAccessTokenResume
  cases readIamReply reply with
  | error e => rfl
  | ok v => rfl

theorem getAccessToken_fresh (env : Env) (s : State) (tok : String)
    (h : cachedIfValid s (env.clock s.clockReads) = some tok) :
    getAccessToken env s = (.ok tok, { s with clockReads := s.clockReads + 1 }) := by
  simp [getAccessToken, getAccessTokenBegin_fresh env s tok h, finishTokenStep]

theorem getAccessToken_stale (env : Env) (s : State)
    (h : cachedIfValid s (env.clock s.clockReads) = none) (hkey : ApiKeyConfigured env) :
    getAccessToken env s =
      getAccessTokenResume (env.clock s.clockReads) (env.iam s.iamCalls)
        { s with clockReads := s.clockReads + 1, iamCalls := s.iamCalls + 1 } := by
  simp [getAccessToken, getAccessTokenBegin_stale env s h hkey, finishTokenStep]

theorem getAccessToken_noKey (env : Env) (s : State)
    (h : cachedIfValid s (env.clock s.clockReads) = none) (hkey : ¬ ApiKeyConfigured env) :
    getAccessToken env s =
      (.error (tokenError
        "IBM API key is not configured in environment variables (IBM_API_KEY)"),
        { s with clockReads := s.clockReads + 1 }) := by
  simp [getAccessToken, getAccessTokenBegin_noKey env s h hkey, finishTokenStep]

/-- C6, counterexample: with an empty cache and no API key configured,
`getAccessToken` is not in the reuse case, and yet it sends no request to the
identity provider: it fails at once. -/
theorem getAccessToken_no_key_sends_nothing :
    State.initial.cachedToken = none ∧
      (getAccessToken noKeyEnv State.initial).2.iamCalls = State.initial.iamCalls ∧
      (getAccessToken noKeyEnv State.initial).1 =
        .error (tokenError
          "IBM API key is not configured in environment variables (IBM_API_KEY)") := by
  refine ⟨rfl, rfl, rfl⟩

/-- C6, amended: `getAccessToken` returns the cached token without contacting
the identity provider exactly when a non-empty token is cached and
`now + 5 minutes < expiresAt`.  In every other case it sends exactly one
request to the identity provider if the API key is configured, and fails
without sending any if it is not.  With the key configured, a token expiring
4 minutes or exactly 5 minutes after `now` triggers a request, and a token
expiring 6 minutes after `now` is reused. -/
theorem getAccessToken_cache_decision (env : Env) (s : State) :
    ((∃ tok, s.cachedToken = some tok ∧ (getAccessToken env s).1 = .ok tok ∧
          (getAccessToken env s).2.iamCalls = s.iamCalls) ↔
        CacheFresh s (env.clock s.clockReads)) ∧
    (¬ CacheFresh s (env.clock s.clockReads) → ApiKeyConfigured env →
        (getAccessToken env s).2.iamCalls = s.iamCalls + 1 ∧
        (getAccessToken env s).1 = tokenOfReply (env.iam s.iamCalls)) ∧
    (¬ CacheFresh s (env.clock s.clockReads) → ¬ ApiKeyConfigured env →
        (getAccessToken env s).2.iamCalls = s.iamCalls ∧
        ∃ e, (getAccessToken env s).1 = .error e) ∧
    (∀ tok, s.cachedToken = some tok → tok ≠ "" → ApiKeyConfigured env →
        (s.tokenExpiration = some (env.clock s.clockReads + 4 * 60 * 1000) →
          (getAccessToken env s).2.iamCalls = s.iamCalls + 1) ∧
        (s.tokenExpiration = some (env.clock s.clockReads + 5 * 60 * 1000) →
          (getAccessToken env s).2.iamCalls = s.iamCalls + 1) ∧
        (s.tokenExpiration = some (env.clock s.clockReads + 6 * 60 * 1000) →
          (getAccessToken env s).1 = .ok tok ∧
          (getAccessToken env s).2.iamCalls = s.iamCalls)) := by
  have hstale : ¬ CacheFresh s (env.clock s.clockReads) → ApiKeyConfigured env →
      (getAccessToken env s).2.iamCalls = s.iamCalls + 1 ∧
      (getAccessToken env s).1 = tokenOfReply (env.iam s.iamCalls) := by
    intro hf hkey
    rw [getAccessToken_stale env s (cachedIfValid_eq_none s _ hf) hkey]
    exact ⟨by rw [getAccessTokenResume_iamCalls], getAccessTokenResume_fst _ _ _⟩
  have hnokey : ¬ CacheFresh s (env.clock s.clockReads) → ¬ ApiKeyConfigured env →
      (getAccessToken env s).2.iamCalls = s.iamCalls ∧
      ∃ e, (getAccessToken env s).1 = .error e := by
    intro hf hkey
    rw [getAccessToken_noKey env s (cachedIfValid_eq_none s _ hf) hkey]
    exact ⟨rfl, _, rfl⟩
  have hfresh : ∀ tok, cachedIfValid s (env.clock s.clockReads) = some tok →
      s.cachedToken = some tok ∧ (getAccessToken env s).1 = .ok tok ∧
        (getAccessToken env s).2.iamCalls = s.iamCalls := by
    intro tok h
    rw [getAccessToken_fresh env s tok h]
    exact ⟨((cachedIfValid_eq_some s _ tok).1 h).1, rfl, rfl⟩
  refine ⟨⟨?_, ?_⟩, hstale, hnokey, ?_⟩
  · rintro ⟨tok, -, hok, hcalls⟩
    by_contra hf
    by_cases hkey : ApiKeyConfigured env
    · have := (hstale hf hkey).1
      omega
    · obtain ⟨e, he⟩ := (hnokey hf hkey).2
      rw [he] at hok
      cases hok
  · intro hf
    obtain ⟨tok, h⟩ := (cacheFresh_iff s _).1 hf
    exact ⟨tok, hfresh tok h⟩
  · intro tok hc hne hkey
    refine ⟨?_, ?_, ?_⟩
    · intro he
      refine (hstale ?_ hkey).1
      rintro ⟨t, e, -, -, h3, h4⟩
      rw [he] at h3
      cases h3
      omega
    · intro he
      refine (hstale ?_ hkey).1
      rintro ⟨t, e, -, -, h3, h4⟩
      rw [he] at h3
      cases h3
      omega
    · intro he
      have h := (cachedIfValid_eq_some s (env.clock s.clockReads) tok).2
        ⟨hc, hne, _, he, by omega⟩
      exact (hfresh tok h).2

/-- C6, witness: in the sample environment a cached token expiring six
minutes after the clock reading is returned without a request, and one
expiring four minutes after it is replaced by a newly fetched token. -/
theorem getAccessToken_cache_decision_witness :
    (getAccessToken sampleEnv
        { State.initial with cachedToken := some "old",
                             tokenExpiration := some (1000 + 6 * 60 * 1000) }).1 = .ok "old" ∧
    (getAccessToken sampleEnv
        { State.initial with cachedToken := some "old",
                             tokenExpiration := some (1000 + 4 * 60 * 1000) }).2.iamCalls = 1 := by
  refine ⟨?_, ?_⟩
  · exact ((getAccessToken_cache_decision sampleEnv
      { State.initial with cachedToken := some "old",
                           tokenExpiration := some (1000 + 6 * 60 * 1000) }).2.2.2
      "old" rfl (by decide) ⟨"key", rfl, by decide⟩).2.2 rfl |>.1
  · exact ((getAccessToken_cache_decision sampleEnv
      { State.initial with cachedToken := some "old",
                           tokenExpiration := some (1000 + 4 * 60 * 1000) }).2.2.2
      "old" rfl (by decide) ⟨"key", rfl, by decide⟩).1 rfl

theorem cachedIfValid_of_empty (s : State) (now : Int) (h : s.cachedToken = none) :
    cachedIfValid s now = none := by
  simp [cachedIfValid, h]

/-- C5, counterexample: two concurrent calls on the empty cache of a fresh
process send two requests to the identity provider, and when the provider
issues a different token for each request the two callers receive different
tokens. -/
theorem concurrent_getAccessToken_fetches_twice :
    State.initial.cachedToken = none ∧
      (concurrentGetAccessToken sampleEnv true State.initial).2.iamCalls = 2 ∧
      (concurrentGetAccessToken sampleEnv true State.initial).1 =
        (.ok "token-0", .ok "token-1") ∧
      (concurrentGetAccessToken sampleEnv true State.initial).1.1 ≠
        (concurrentGetAccessToken sampleEnv true State.initial).1.2 := by
  refine ⟨rfl, by decide, by decide, by decide⟩

/-- C5, amended: two concurrent `getAccessToken` calls issued while the cache
is empty (API key configured) each send a request of their own to the identity
provider, two requests in all, and each caller receives the outcome of its own
request, in whichever order the requests settle.  There is no single-flight
mechanism. -/
theorem concurrent_getAccessToken_no_single_flight (env : Env) (firstSettlesFirst : Bool)
    (s : State) (hempty : s.cachedToken = none) (hkey : ApiKeyConfigured env) :
    (concurrentGetAccessToken env firstSettlesFirst s).2.iamCalls = s.iamCalls + 2 ∧
      (concurrentGetAccessToken env firstSettlesFirst s).1 =
        (tokenOfReply (env.iam s.iamCalls), tokenOfReply (env.iam (s.iamCalls + 1))) := by
  have hA := getAccessTokenBegin_stale env s (cachedIfValid_of_empty s _ hempty) hkey
  have hB := getAccessTokenBegin_stale env
    { s with clockReads := s.clockReads + 1, iamCalls := s.iamCalls + 1 }
    (cachedIfValid_of_empty _ _ hempty) hkey
  unfold concurrentGetAccessToken
  rw [hA]
  simp only [hB, finishTokenStep]
  cases firstSettlesFirst
  · simp only [Bool.false_eq_true, if_false, getAccessTokenResume_iamCalls,
      getAccessTokenResume_fst, and_self]
  · simp only [if_true, getAccessTokenResume_iamCalls,
      getAccessTokenResume_fst, and_self]

/-- C5, witness: the sample environment with the empty cache of a fresh
process. -/
theorem concurrent_getAccessToken_no_single_flight_witness :
    (concurrentGetAccessToken sampleEnv false State.initial).2.iamCalls =
        State.initial.iamCalls + 2 ∧
      (concurrentGetAccessToken sampleEnv false State.initial).1 =
        (tokenOfReply (sampleEnv.iam State.initial.iamCalls),
          tokenOfReply (sampleEnv.iam (State.initial.iamCalls + 1))) :=
  concurrent_getAccessToken_no_single_flight sampleEnv false State.initial rfl
    ⟨"key", rfl, by decide⟩

/-! ## Inference client -/

theorem getAccessTokenResume_frame (now : Int) (reply : IamReply) (s : State) :
    (getAccessTokenResume now reply s).2.providerCalls = s.providerCalls ∧
      (getAccessTokenResume now reply s).2.refreshCalls = s.refreshCalls := by
  unfold getAccessTokenResume
  cases readIamReply reply with
  | error e => exact ⟨rfl, rfl⟩
  | ok v => exact ⟨rfl, rfl⟩

theorem getAccessTokenBegin_frame (env : Env) (s : State) :
    (getAccessTokenBegin env s).2.providerCalls = s.providerCalls ∧
      (getAccessTokenBegin env s).2.refreshCalls = s.refreshCalls := by
  unfold getAccessTokenBegin
  dsimp only
  split
  · exact ⟨rfl, rfl⟩
  · split
    · exact ⟨rfl, rfl⟩
    · split <;> exact ⟨rfl, rfl⟩

theorem getAccessToken_frame (env : Env) (s : State) :
    (getAccessToken env s).2.providerCalls = s.providerCalls ∧
      (getAccessToken env s).2.refreshCalls = s.refreshCalls := by
  have hb := getAccessTokenBegin_frame env s
  unfold getAccessToken finishTokenStep
  cases hstep : getAccessTokenBegin env s with
  | mk step s1 =>
    rw [hstep] at hb
    cases step with
    | done result => exact hb
    | awaiting now request =>
      have hr := getAccessTokenResume_frame now (env.iam request) s1
      exact ⟨hr.1.trans hb.1, hr.2.trans hb.2⟩

theorem forceRefreshToken_frame (env : Env) (s : State) :
    (forceRefreshToken env s).2.providerCalls = s.providerCalls ∧
      (forceRefreshToken env s).2.refreshCalls = s.refreshCalls + 1 := by
  unfold forceRefreshToken
  exact getAccessToken_frame env _

/-- C1, the code at the failing input: when the inference provider answers
the first and the second request with HTTP 401 and the third with the text of
a JSON object, `generateSoilStory` sends a third request and succeeds, after
three provider requests and two `forceRefreshToken` calls. -/
theorem generateSoilStory_retries_after_second_401 :
    ∃ final, generateSoilStory unauthorizedTwiceEnv sampleSoil 3 State.initial =
        some (.ok (.obj []), final) ∧
      final.providerCalls = 3 ∧ final.refreshCalls = 2 := by
  refine ⟨_, rfl, ?_, ?_⟩
  · decide
  · decide

theorem generateSoilStoryAttempt_of_token (env : Env) (soilData : SoilData) (s s1 : State)
    (tok : String) (h : getAccessToken env s = (.ok tok, s1)) :
    generateSoilStoryAttempt env soilData s =
      (readProviderReply env (env.provider s1.providerCalls soilData),
        { s1 with providerCalls := s1.providerCalls + 1 }) := by
  simp [generateSoilStoryAttempt, h]

theorem generateSoilStory_of_ok (env : Env) (soilData : SoilData) (fuel : Nat) (s s1 : State)
    (value : Json) (h : generateSoilStoryAttempt env soilData s = (.ok value, s1)) :
    generateSoilStory env soilData (fuel + 1) s = some (.ok value, s1) := by
  simp [generateSoilStory, h]

theorem generateSoilStory_of_error (env : Env) (soilData : SoilData) (fuel : Nat)
    (s s1 : State) (e : JsError) (h : generateSoilStoryAttempt env soilData s = (.error e, s1))
    (hs : e.status ≠ some 401) :
    generateSoilStory env soilData (fuel + 1) s = some (.error (storyError e), s1) := by
  simp [generateSoilStory, h, hs]

theorem readProviderReply_of_nonAuthFailure (env : Env) (reply : ProviderReply)
    (message : String) (h : nonAuthFailureMessage env reply = some message) :
    ∃ e, readProviderReply env reply = .error e ∧ e.message = message ∧ e.status ≠ some 401 := by
  cases reply with
  | networkError m =>
    simp only [nonAuthFailureMessage, Option.some.injEq] at h
    subst h
    exact ⟨_, rfl, rfl, by simp⟩
  | httpError status m =>
    by_cases hst : status = 401
    · simp [nonAuthFailureMessage, hst] at h
    · simp only [nonAuthFailureMessage, if_neg hst, Option.some.injEq] at h
      subst h
      exact ⟨_, rfl, rfl, by simpa using hst⟩
  | ok generated =>
    cases generated with
    | none =>
      simp only [nonAuthFailureMessage, Option.some.injEq] at h
      subst h
      exact ⟨_, rfl, rfl, by simp⟩
    | some g =>
      cases g with
      | none =>
        simp only [nonAuthFailureMessage, Option.some.injEq] at h
        subst h
        exact ⟨_, rfl, rfl, by simp⟩
      | some text =>
        by_cases hblank : text.toList.all isTrimmed = true
        · simp only [nonAuthFailureMessage, if_pos hblank, Option.some.injEq] at h
          subst h
          have hb : isEmptyText (some text) = true := hblank
          refine ⟨{ message := "Empty response from IBM Granite API", status := none },
            ?_, rfl, by simp⟩
          simp only [readProviderReply, hb, if_true]
        · simp only [nonAuthFailureMessage, if_neg hblank] at h
          split at h
          · rename_i hparse
            simp only [Option.some.injEq] at h
            subst h
            obtain ⟨h1, h2⟩ := hparse
            rw [Option.isNone_iff_eq_none] at h1 h2
            refine ⟨parseFailure, ?_, rfl, by simp [parseFailure]⟩
            have hp : parseGeneratedText env text = .error parseFailure := by
              unfold parseGeneratedText
              rw [h1]
              cases hx : extractJson text with
              | none => rfl
              | some span =>
                rw [hx] at h2
                simp only [Option.some_bind] at h2
                simp [h2]
            have hb : isEmptyText (some text) = false := Bool.eq_false_iff.2 hblank
            simp only [readProviderReply, hb, Bool.false_eq_true, if_false, Option.getD_some, hp]
          · cases h

/-- C8: whenever a token is obtained and the provider's reply to the request
is a failure other than an HTTP 401 response (network error, another status,
missing results, empty or whitespace-only text, unparseable text),
`generateSoilStory` returns, for any fuel, an error whose message is the
originating message behind the fixed text "Failed to generate soil story: ",
after exactly one provider request and no `forceRefreshToken` call. -/
theorem generateSoilStory_non_auth_failure_not_retried (env : Env) (soilData : SoilData)
    (fuel : Nat) (s s1 : State) (tok message : String)
    (htoken : getAccessToken env s = (.ok tok, s1))
    (hfail : nonAuthFailureMessage env (env.provider s1.providerCalls soilData) = some message) :
    ∃ final, generateSoilStory env soilData (fuel + 1) s =
        some (.error { message := "Failed to generate soil story: " ++ message, status := none },
          final) ∧
      final.providerCalls = s.providerCalls + 1 ∧ final.refreshCalls = s.refreshCalls := by
  obtain ⟨e, he, hm, hs⟩ := readProviderReply_of_nonAuthFailure env _ message hfail
  have hframe := getAccessToken_frame env s
  rw [htoken] at hframe
  have hattempt := generateSoilStoryAttempt_of_token env soilData s s1 tok htoken
  rw [he] at hattempt
  refine ⟨{ s1 with providerCalls := s1.providerCalls + 1 }, ?_, ?_, ?_⟩
  · rw [generateSoilStory_of_error env soilData fuel s _ e hattempt hs, storyError, hm]
  · exact congrArg (fun n => n + 1) hframe.1
  · exact hframe.2

/-- C8, witness: the provider answers with prose that holds no JSON. -/
theorem generateSoilStory_non_auth_failure_not_retried_witness :
    ∃ final, generateSoilStory proseEnv sampleSoil 1 State.initial =
        some (.error
          { message := "Failed to generate soil story: Failed to parse the generated soil story",
            status := none }, final) ∧
      final.providerCalls = 1 ∧ final.refreshCalls = 0 :=
  generateSoilStory_non_auth_failure_not_retried proseEnv sampleSoil 0 State.initial
    (getAccessToken proseEnv State.initial).2 "token-0"
    "Failed to parse the generated soil story" (by decide) (by decide)

theorem isEmptyText_of_mem_openBrace (text : String) (h : openBrace ∈ text.toList) :
    isEmptyText (some text) = false := by
  rw [Bool.eq_false_iff]
  intro hall
  have hb : isTrimmed openBrace = true := List.all_eq_true.1 hall openBrace h
  revert hb
  decide

theorem readProviderReply_of_parse (env : Env) (text : String) (path : ParsePath) (value : Json)
    (hnonempty : isEmptyText (some text) = false)
    (hparse : parseGeneratedText env text = .ok (path, value)) :
    readProviderReply env (.ok (some (some text))) = .ok value := by
  simp only [readProviderReply, hnonempty, Bool.false_eq_true, if_false, Option.getD_some, hparse]

theorem dropWhile_append_of_all {α : Type} (p : α → Bool) (l r : List α)
    (h : ∀ x ∈ l, p x = true) : (l ++ r).dropWhile p = r.dropWhile p := by
  induction l with
  | nil => rfl
  | cons a l ih =>
    have ha : p a = true := h a (List.mem_cons_self a l)
    simp only [List.cons_append, List.dropWhile_cons, ha, if_true]
    exact ih (fun x hx => h x (List.mem_cons_of_mem a hx))

theorem extractJson_wrapped (before json after : String) (inner : List Char)
    (hbefore : ∀ c ∈ before.toList, c ≠ openBrace)
    (hafter : ∀ c ∈ after.toList, c ≠ closeBrace)
    (hjson : json.toList = openBrace :: (inner ++ [closeBrace])) :
    extractJson (before ++ json ++ after) = some json := by
  have hdata : (before ++ json ++ after).toList =
      before.toList ++ (json.toList ++ after.toList) := by
    simp [String.toList, String.data_append]
  have h1 : ((before ++ json ++ after).toList.dropWhile (fun c => c != openBrace)) =
      json.toList ++ after.toList := by
    rw [hdata, dropWhile_append_of_all _ _ _ (fun c hc => by simpa using hbefore c hc), hjson]
    simp [List.dropWhile_cons]
  have h2 : ((json.toList ++ after.toList).reverse.dropWhile (fun c => c != closeBrace)) =
      json.toList.reverse := by
    rw [List.reverse_append,
      dropWhile_append_of_all _ _ _ (fun c hc => by
        simpa using hafter c (List.mem_reverse.1 hc)), hjson]
    simp [List.dropWhile_cons]
  unfold extractJson
  simp only [h1, h2, List.reverse_reverse]
  rw [hjson]
  have : String.mk (openBrace :: (inner ++ [closeBrace])) = json := by
    rw [← hjson]
    rfl
  simp only [this]

/-- C7: if the first provider request of a call is answered with HTTP 401,
the token refresh succeeds, and the retried request is answered with a
non-empty text that the parsing block accepts, then `generateSoilStory`
returns (for any fuel of at least two) the value parsed from the second
response, after exactly two provider requests and exactly one
`forceRefreshToken` call. -/
theorem generateSoilStory_retry_once_succeeds (env : Env) (soilData : SoilData) (fuel : Nat)
    (s s1 s2 s3 : State) (tok1 tok2 tok3 message text : String) (path : ParsePath)
    (value : Json)
    (htoken : getAccessToken env s = (.ok tok1, s1))
    (h401 : env.provider s1.providerCalls soilData = .httpError 401 message)
    (hrefresh : forceRefreshToken env { s1 with providerCalls := s1.providerCalls + 1 } =
      (.ok tok2, s2))
    (htoken2 : getAccessToken env s2 = (.ok tok3, s3))
    (hreply : env.provider s3.providerCalls soilData = .ok (some (some text)))
    (hnonempty : isEmptyText (some text) = false)
    (hparse : parseGeneratedText env text = .ok (path, value)) :
    ∃ final, generateSoilStory env soilData (fuel + 2) s = some (.ok value, final) ∧
      final.providerCalls = s.providerCalls + 2 ∧
      final.refreshCalls = s.refreshCalls + 1 := by
  have hf1 := getAccessToken_frame env s
  rw [htoken] at hf1
  have hf2 := forceRefreshToken_frame env { s1 with providerCalls := s1.providerCalls + 1 }
  rw [hrefresh] at hf2
  have hf3 := getAccessToken_frame env s2
  rw [htoken2] at hf3
  have hfirst := generateSoilStoryAttempt_of_token env soilData s s1 tok1 htoken
  rw [h401] at hfirst
  have hsecond := generateSoilStoryAttempt_of_token env soilData s2 s3 tok3 htoken2
  rw [hreply, readProviderReply_of_parse env text path value hnonempty hparse] at hsecond
  have hinner := generateSoilStory_of_ok env soilData fuel s2 _ value hsecond
  refine ⟨{ s3 with providerCalls := s3.providerCalls + 1 }, ?_, ?_, ?_⟩
  · show generateSoilStory env soilData (fuel + 1 + 1) s = _
    rw [generateSoilStory]
    simp only [hfirst, readProviderReply, if_true, hrefresh, hinner]
  · show s3.providerCalls + 1 = s.providerCalls + 2
    have a : s3.providerCalls = s2.providerCalls := hf3.1
    have b : s2.providerCalls = s1.providerCalls + 1 := hf2.1
    have c : s1.providerCalls = s.providerCalls := hf1.1
    omega
  · show s3.refreshCalls = s.refreshCalls + 1
    have a : s3.refreshCalls = s2.refreshCalls := hf3.2
    have b : s2.refreshCalls = s1.refreshCalls + 1 := hf2.2
    have c : s1.refreshCalls = s.refreshCalls := hf1.2
    omega

/-- C7, witness: the provider answers 401 once and then the text of an empty
JSON object. -/
theorem generateSoilStory_retry_once_succeeds_witness :
    ∃ final, generateSoilStory unauthorizedOnceEnv sampleSoil 2 State.initial =
        some (.ok (.obj []), final) ∧
      final.providerCalls = 2 ∧ final.refreshCalls = 1 :=
  generateSoilStory_retry_once_succeeds unauthorizedOnceEnv sampleSoil 0 State.initial
    (getAccessToken unauthorizedOnceEnv State.initial).2
    (forceRefreshToken unauthorizedOnceEnv
      { (getAccessToken unauthorizedOnceEnv State.initial).2 with providerCalls := 1 }).2
    (getAccessToken unauthorizedOnceEnv
      (forceRefreshToken unauthorizedOnceEnv
        { (getAccessToken unauthorizedOnceEnv State.initial).2 with providerCalls := 1 }).2).2
    "token-0" "token-1" "token-1" "Request failed with status code 401" "\x7b\x7d" .direct
    (.obj []) (by decide) (by decide) (by decide) (by decide) (by decide) (by decide) rfl

/-- C9: when the generated text as a whole is the JSON text of a structured
object (it holds an opening brace and `JSON.parse` maps it to an object),
`generateSoilStory` returns exactly that object, for any fuel, through the
direct path: the parsing block reports the direct path, so the brace
extraction plays no part. -/
theorem generateSoilStory_direct_parse (env : Env) (soilData : SoilData) (fuel : Nat)
    (s s1 : State) (tok text : String) (members : List (String × Json))
    (htoken : getAccessToken env s = (.ok tok, s1))
    (hreply : env.provider s1.providerCalls soilData = .ok (some (some text)))
    (hbrace : openBrace ∈ text.toList)
    (hparse : env.jsonParse text = some (.obj members)) :
    parseGeneratedText env text = .ok (.direct, .obj members) ∧
      generateSoilStory env soilData (fuel + 1) s =
        some (.ok (.obj members), { s1 with providerCalls := s1.providerCalls + 1 }) := by
  have hp : parseGeneratedText env text = .ok (.direct, .obj members) := by
    simp [parseGeneratedText, hparse]
  refine ⟨hp, ?_⟩
  have hattempt := generateSoilStoryAttempt_of_token env soilData s s1 tok htoken
  rw [hreply, readProviderReply_of_parse env text _ _
    (isEmptyText_of_mem_openBrace text hbrace) hp] at hattempt
  exact generateSoilStory_of_ok env soilData fuel s _ _ hattempt

/-- C9, witness: the provider answers with the text of an empty JSON
object. -/
theorem generateSoilStory_direct_parse_witness :
    parseGeneratedText sampleEnv "\x7b\x7d" = .ok (.direct, .obj []) ∧
      generateSoilStory sampleEnv sampleSoil 1 State.initial =
        some (.ok (.obj []),
          { (getAccessToken sampleEnv State.initial).2 with
            providerCalls := (getAccessToken sampleEnv State.initial).2.providerCalls + 1 }) :=
  generateSoilStory_direct_parse sampleEnv sampleSoil 0 State.initial
    (getAccessToken sampleEnv State.initial).2 "token-0" "\x7b\x7d" [] (by decide) (by decide)
    (by decide) rfl

/-- C10: when the generated text is `before ++ json ++ after`, where `json`
runs from an opening brace to a closing brace and is accepted by `JSON.parse`
as a structured object, `before` and `after` hold no brace, and the text as a
whole is rejected by `JSON.parse`, then `generateSoilStory` returns, for any
fuel, exactly the object parsed from `json`, through the extraction path. -/
theorem generateSoilStory_extracted_parse (env : Env) (soilData : SoilData) (fuel : Nat)
    (s s1 : State) (tok before json after : String) (inner : List Char)
    (members : List (String × Json))
    (htoken : getAccessToken env s = (.ok tok, s1))
    (hreply : env.provider s1.providerCalls soilData =
      .ok (some (some (before ++ json ++ after))))
    (hbefore : ∀ c ∈ before.toList, c ≠ openBrace ∧ c ≠ closeBrace)
    (hafter : ∀ c ∈ after.toList, c ≠ openBrace ∧ c ≠ closeBrace)
    (hjson : json.toList = openBrace :: (inner ++ [closeBrace]))
    (hobject : env.jsonParse json = some (.obj members))
    (hwhole : env.jsonParse (before ++ json ++ after) = none) :
    parseGeneratedText env (before ++ json ++ after) = .ok (.extracted, .obj members) ∧
      generateSoilStory env soilData (fuel + 1) s =
        some (.ok (.obj members), { s1 with providerCalls := s1.providerCalls + 1 }) := by
  have hx : extractJson (before ++ json ++ after) = some json :=
    extractJson_wrapped before json after inner (fun c hc => (hbefore c hc).1)
      (fun c hc => (hafter c hc).2) hjson
  have hp : parseGeneratedText env (before ++ json ++ after) =
      .ok (.extracted, .obj members) := by
    simp [parseGeneratedText, hwhole, hx, hobject]
  have hmem : openBrace ∈ (before ++ json ++ after).toList := by
    have : (before ++ json ++ after).toList =
        before.toList ++ (json.toList ++ after.toList) := by
      simp [String.toList, String.data_append]
    rw [this, hjson]
    simp
  refine ⟨hp, ?_⟩
  have hattempt := generateSoilStoryAttempt_of_token env soilData s s1 tok htoken
  rw [hreply, readProviderReply_of_parse env _ _ _
    (isEmptyText_of_mem_openBrace _ hmem) hp] at hattempt
  exact generateSoilStory_of_ok env soilData fuel s _ _ hattempt

/-- C10, witness: the provider answers with an empty JSON object between two
pieces of prose. -/
theorem generateSoilStory_extracted_parse_witness :
    parseGeneratedText wrappedJsonEnv ("Here it is: " ++ "\x7b\x7d" ++ " Enjoy.") =
        .ok (.extracted, .obj []) ∧
      generateSoilStory wrappedJsonEnv sampleSoil 1 State.initial =
        some (.ok (.obj []),
          { (getAccessToken wrappedJsonEnv State.initial).2 with
            providerCalls :=
              (getAccessToken wrappedJsonEnv State.initial).2.providerCalls + 1 }) :=
  generateSoilStory_extracted_parse wrappedJsonEnv sampleSoil 0 State.initial
    (getAccessToken wrappedJsonEnv State.initial).2 "token-0" "Here it is: " "\x7b\x7d"
    " Enjoy." [] [] (by decide) (by decide) (by decide) (by decide) (by decide) rfl rfl

theorem getAccessToken_succeeds (env : Env) (s : State) (hkey : ApiKeyConfigured env)
    (hiam : ∀ k, ∃ tok, tokenOfReply (env.iam k) = .ok tok) :
    ∃ tok s1, getAccessToken env s = (.ok tok, s1) := by
  cases hc : cachedIfValid s (env.clock s.clockReads) with
  | some tok => exact ⟨tok, _, getAccessToken_fresh env s tok hc⟩
  | none =>
    obtain ⟨tok, htok⟩ := hiam s.iamCalls
    rw [getAccessToken_stale env s hc hkey]
    unfold tokenOfReply at htok
    unfold getAccessTokenResume
    cases hr : readIamReply (env.iam s.iamCalls) with
    | error e =>
      rw [hr] at htok
      cases htok
    | ok v => exact ⟨v.1, _, rfl⟩

/-- While the inference provider answers every request with HTTP 401 and the
identity provider keeps issuing tokens, `generateSoilStory` never returns: no
amount of fuel is enough, each level of the recursion refreshing the token and
calling the function again. -/
theorem generateSoilStory_diverges_on_repeated_401 (env : Env) (soilData : SoilData)
    (hkey : ApiKeyConfigured env)
    (hiam : ∀ k, ∃ tok, tokenOfReply (env.iam k) = .ok tok)
    (h401 : ∀ k, ∃ message, env.provider k soilData = .httpError 401 message)
    (fuel : Nat) (s : State) :
    generateSoilStory env soilData fuel s = none := by
  induction fuel generalizing s with
  | zero => rfl
  | succ fuel ih =>
    obtain ⟨tok, s1, htoken⟩ := getAccessToken_succeeds env s hkey hiam
    obtain ⟨message, hreply⟩ := h401 s1.providerCalls
    have hattempt := generateSoilStoryAttempt_of_token env soilData s s1 tok htoken
    rw [hreply] at hattempt
    obtain ⟨tok2, s2, hrefresh⟩ := getAccessToken_succeeds env
      { s1 with providerCalls := s1.providerCalls + 1, cachedToken := none,
                tokenExpiration := some 0, refreshCalls := s1.refreshCalls + 1 } hkey hiam
    rw [generateSoilStory]
    simp only [hattempt, readProviderReply, if_true, forceRefreshToken, hrefresh, ih]

/-- The sample environment with an inference provider that answers every
request with HTTP 401: the call runs out of any fuel, here 50. -/
theorem generateSoilStory_diverges_on_repeated_401_witness :
    generateSoilStory
      { sampleEnv with
        provider := fun _ _ => .httpError 401 "Request failed with status code 401" }
      sampleSoil 50 State.initial = none :=
  generateSoilStory_diverges_on_repeated_401 _ sampleSoil ⟨"key", rfl, by decide⟩
    (fun k => ⟨"token-" ++ toString k, by
      have hne : ("token-" ++ toString k) ≠ "" := by
        intro h
        have := congrArg String.length h
        simp only [String.length_append] at this
        have h6 : ("token-" : String).length = 6 := by decide
        have h0 : ("" : String).length = 0 := by decide
        omega
      simp [tokenOfReply, readIamReply, sampleEnv, hne]⟩)
    (fun _ => ⟨_, rfl⟩) 50 State.initial

/-! ## Speech synthesizer -/

/-- C2, the code at the failing input: the splitter divides the text into two
segments whose audio is `[1]` and `[2]`; `generateAudio` succeeds and the file
it returns holds `[1]`, the audio of the first segment alone, and not the
concatenation `[1, 2]`. -/
theorem generateAudio_keeps_first_chunk_only :
    sampleEnv.ttsSplit (some (.str "Loam is rich. Clay is dense.")) = .ok ["u0", "u1"] ∧
      sampleEnv.download 0 "u0" = .response 200 [1] ∧
      sampleEnv.download 1 "u1" = .response 200 [2] ∧
      ∃ final,
        generateAudio sampleEnv (some (.str "Loam is rich. Clay is dense.")) State.initial =
          some (.ok "/audio/soil_story_id0.mp3", final) ∧
        readFile final.files (joinPath sampleEnv.audioDir "soil_story_id0.mp3") = some [1] := by
  refine ⟨rfl, rfl, rfl, _, rfl, ?_⟩
  decide

/-! ## Controller -/

theorem validateRequest_error (env : Env) (req : Request) (response : Response)
    (h : validateRequest env req = .error response) :
    ∃ message, response = { status := 400, body := .error message } := by
  unfold validateRequest at h
  split at h
  · cases h
    exact ⟨_, rfl⟩
  · dsimp only at h
    split at h
    · cases h
      exact ⟨_, rfl⟩
    · split at h
      · cases h
        exact ⟨_, rfl⟩
      · cases h

theorem not_outsideRange_of_checks (x : JsNum) (lo hi : ℚ)
    (h : ¬ (x.isNaN || x.lt (.fin lo) || JsNum.lt (.fin hi) x) = true) :
    ¬ OutsideRange x lo hi := by
  cases x with
  | nan => exact absurd rfl h
  | posInf => exact absurd rfl h
  | negInf => exact absurd rfl h
  | fin q =>
    simp only [JsNum.isNaN, JsNum.lt, Bool.false_or, Bool.or_eq_true, decide_eq_true_eq] at h
    exact h

theorem validateRequest_ok (env : Env) (req : Request) (a b : JsNum)
    (h : validateRequest env req = .ok (a, b)) :
    ¬ OutsideRange (parseField env req.pH) 0 14 ∧
      ¬ OutsideRange (parseField env req.moisture) 0 100 := by
  unfold validateRequest at h
  split at h
  · cases h
  · dsimp only at h
    split at h
    · cases h
    · rename_i hph
      split at h
      · cases h
      · rename_i hm
        exact ⟨not_outsideRange_of_checks _ 0 14 hph, not_outsideRange_of_checks _ 0 100 hm⟩

theorem checks_false_of_not_outsideRange (x : JsNum) (lo hi : ℚ)
    (h : ¬ OutsideRange x lo hi) :
    (x.isNaN || x.lt (.fin lo) || JsNum.lt (.fin hi) x) = false := by
  cases x with
  | nan => exact absurd trivial h
  | posInf => exact absurd trivial h
  | negInf => exact absurd trivial h
  | fin q =>
    simp only [OutsideRange, not_or] at h
    simp [JsNum.isNaN, JsNum.lt, h.1, h.2]

/-- The validation block of `generateStory` accepts every request whose pH and
moisture are each a non-empty string or a number other than 0, with parsed
values inside [0, 14] and [0, 100]: it raises no 400 response and yields the
two parsed numbers. -/
theorem validateRequest_accepts_in_range (env : Env) (req : Request)
    (hpH : req.pH.isFalsy = false) (hmoisture : req.moisture.isFalsy = false)
    (hpHRange : ¬ OutsideRange (parseField env req.pH) 0 14)
    (hmoistureRange : ¬ OutsideRange (parseField env req.moisture) 0 100) :
    validateRequest env req = .ok (parseField env req.pH, parseField env req.moisture) := by
  have h1 := checks_false_of_not_outsideRange _ 0 14 hpHRange
  have h2 := checks_false_of_not_outsideRange _ 0 100 hmoistureRange
  unfold validateRequest
  simp only [hpH, hmoisture, Bool.or_self, Bool.false_eq_true, if_false, h1, h2]

/-- The boundary values given as strings, with a `parseFloat` that reads
"0" as 0 and anything else as 100. -/
theorem validateRequest_accepts_in_range_witness :
    validateRequest
        { sampleEnv with parseFloat := fun text => if text = "0" then .fin 0 else .fin 100 }
        { pH := .str "0", moisture := .str "100", base64Image := none } =
      .ok (.fin 0, .fin 100) :=
  validateRequest_accepts_in_range _ _ (by decide) (by decide) (by decide) (by decide)

/-- C3, the code at the failing inputs: a request whose pH is the number 0,
or whose moisture is the number 0, is answered with status 400 ("Missing
required parameters") whatever the other fields are, and nothing else
happens. -/
theorem generateStory_rejects_number_zero (env : Env) (fuel : Nat) (s : State)
    (other : Field) (image : Option String) :
    generateStory env { pH := .num (.fin 0), moisture := other, base64Image := image } fuel s =
        some ({ status := 400,
                body := .error "Missing required parameters: pH and moisture are required" },
          s) ∧
      generateStory env { pH := other, moisture := .num (.fin 0), base64Image := image } fuel s =
        some ({ status := 400,
                body := .error "Missing required parameters: pH and moisture are required" },
          s) := by
  constructor
  · simp [generateStory, validateRequest, Field.isFalsy]
  · simp [generateStory, validateRequest, Field.isFalsy]

/-- C4: a request whose parsed pH is not a number or lies outside [0, 14], or
whose parsed moisture is not a number or lies outside [0, 100], is answered
(for any fuel) with status 400 and an error message, and the state is left
exactly as it was: the story generator and `generateAudio` are not invoked, no
request is sent, and no file is written. -/
theorem generateStory_rejects_out_of_range (env : Env) (req : Request) (fuel : Nat)
    (s : State)
    (h : OutsideRange (parseField env req.pH) 0 14 ∨
      OutsideRange (parseField env req.moisture) 0 100) :
    ∃ message,
      generateStory env req fuel s = some ({ status := 400, body := .error message }, s) := by
  cases hv : validateRequest env req with
  | error response =>
    obtain ⟨message, rfl⟩ := validateRequest_error env req response hv
    exact ⟨message, by simp [generateStory, hv]⟩
  | ok parsed =>
    obtain ⟨a, b⟩ := parsed
    have hin := validateRequest_ok env req a b hv
    cases h with
    | inl h1 => exact absurd h1 hin.1
    | inr h2 => exact absurd h2 hin.2

/-- C4, witness: a pH of 15 with a moisture of 50, both numbers. -/
theorem generateStory_rejects_out_of_range_witness :
    ∃ message,
      generateStory sampleEnv
          { pH := .num (.fin 15), moisture := .num (.fin 50), base64Image := none }
          1 State.initial =
        some ({ status := 400, body := .error message }, State.initial) :=
  generateStory_rejects_out_of_range sampleEnv
    { pH := .num (.fin 15), moisture := .num (.fin 50), base64Image := none } 1 State.initial
    (Or.inl (Or.inr (by decide)))

/-! ## Token cache: refresh, expiry, failure -/

theorem getAccessTokenResume_cachedToken (now : Int) (reply : IamReply) (s : State)
    (tok : String) (h : (getAccessTokenResume now reply s).1 = .ok tok) :
    (getAccessTokenResume now reply s).2.cachedToken = some tok := by
  unfold getAccessTokenResume at h ⊢
  cases hr : readIamReply reply with
  | error e =>
    rw [hr] at h
    cases h
  | ok v =>
    rw [hr] at h
    simp only at h ⊢
    cases h
    rfl

theorem forceRefreshToken_of_key (env : Env) (s : State) (hkey : ApiKeyConfigured env) :
    forceRefreshToken env s =
      getAccessTokenResume (env.clock s.clockReads) (env.iam s.iamCalls)
        { s with cachedToken := none, tokenExpiration := some 0,
                 refreshCalls := s.refreshCalls + 1, clockReads := s.clockReads + 1,
                 iamCalls := s.iamCalls + 1 } := by
  unfold forceRefreshToken
  rw [getAccessToken_stale env _ (cachedIfValid_of_empty _ _ rfl) hkey]

theorem forceRefreshToken_of_noKey (env : Env) (s : State) (hkey : ¬ ApiKeyConfigured env) :
    forceRefreshToken env s =
      (.error (tokenError
        "IBM API key is not configured in environment variables (IBM_API_KEY)"),
        { s with cachedToken := none, tokenExpiration := some 0,
                 refreshCalls := s.refreshCalls + 1, clockReads := s.clockReads + 1 }) := by
  unfold forceRefreshToken
  rw [getAccessToken_noKey env _ (cachedIfValid_of_empty _ _ rfl) hkey]

/-- C16, counterexample: without an API key, `forceRefreshToken` on a cache
that holds a token valid for an hour sends no request to the identity
provider; it fails, and the cache is left cleared. -/
theorem forceRefreshToken_no_key_sends_nothing :
    (forceRefreshToken noKeyEnv
        { State.initial with cachedToken := some "old",
                             tokenExpiration := some (1000 + 3600 * 1000) }).2.iamCalls = 0 ∧
      (forceRefreshToken noKeyEnv
        { State.initial with cachedToken := some "old",
                             tokenExpiration := some (1000 + 3600 * 1000) }).1 =
        .error (tokenError
          "IBM API key is not configured in environment variables (IBM_API_KEY)") ∧
      (forceRefreshToken noKeyEnv
        { State.initial with cachedToken := some "old",
                             tokenExpiration := some (1000 + 3600 * 1000) }).2.cachedToken =
        none := by
  refine ⟨rfl, rfl, rfl⟩

/-- C16, amended: for every cache state, including one holding a token that is
still valid beyond the buffer, `forceRefreshToken` with the API key configured
sends exactly one request to the identity provider, returns the outcome of that
request, and on success leaves the newly issued token in the cache; without
the API key it fails without sending any request. -/
theorem forceRefreshToken_contacts_once (env : Env) (s : State) :
    (ApiKeyConfigured env →
      (forceRefreshToken env s).2.iamCalls = s.iamCalls + 1 ∧
      (forceRefreshToken env s).1 = tokenOfReply (env.iam s.iamCalls) ∧
      ∀ tok, (forceRefreshToken env s).1 = .ok tok →
        (forceRefreshToken env s).2.cachedToken = some tok) ∧
    (¬ ApiKeyConfigured env →
      (forceRefreshToken env s).2.iamCalls = s.iamCalls ∧
      ∃ e, (forceRefreshToken env s).1 = .error e) := by
  constructor
  · intro hkey
    rw [forceRefreshToken_of_key env s hkey]
    refine ⟨by rw [getAccessTokenResume_iamCalls], getAccessTokenResume_fst _ _ _, ?_⟩
    intro tok h
    exact getAccessTokenResume_cachedToken _ _ _ tok h
  · intro hkey
    rw [forceRefreshToken_of_noKey env s hkey]
    exact ⟨rfl, _, rfl⟩

/-- C16, witness: in the sample environment a cache holding the token "old",
valid for an hour, is refreshed with one request and then holds "token-0". -/
theorem forceRefreshToken_contacts_once_witness :
    (forceRefreshToken sampleEnv
        { State.initial with cachedToken := some "old",
                             tokenExpiration := some (1000 + 3600 * 1000) }).2.iamCalls = 1 ∧
      (forceRefreshToken sampleEnv
        { State.initial with cachedToken := some "old",
                             tokenExpiration := some (1000 + 3600 * 1000) }).2.cachedToken =
        some "token-0" :=
  ⟨((forceRefreshToken_contacts_once sampleEnv
      { State.initial with cachedToken := some "old",
                           tokenExpiration := some (1000 + 3600 * 1000) }).1
      ⟨"key", rfl, by decide⟩).1,
   ((forceRefreshToken_contacts_once sampleEnv
      { State.initial with cachedToken := some "old",
                           tokenExpiration := some (1000 + 3600 * 1000) }).1
      ⟨"key", rfl, by decide⟩).2.2 "token-0" (by decide)⟩

/-- C17: when `getAccessToken` fetches (cache not usable, API key configured)
and the identity provider answers with the non-empty `access_token` `t` and
`expires_in = secs`, the call returns `t` and the cache afterwards holds `t`
with expiry `now + 1000 * secs` milliseconds, `now` being the clock value read
by that call. -/
theorem getAccessToken_caches_with_expiry (env : Env) (s : State) (t : String) (secs : Int)
    (hstale : ¬ CacheFresh s (env.clock s.clockReads)) (hkey : ApiKeyConfigured env)
    (hreply : env.iam s.iamCalls = .ok (some t) (some secs)) (ht : t ≠ "") :
    (getAccessToken env s).1 = .ok t ∧
      (getAccessToken env s).2.cachedToken = some t ∧
      (getAccessToken env s).2.tokenExpiration =
        some (env.clock s.clockReads + 1000 * secs) := by
  rw [getAccessToken_stale env s (cachedIfValid_eq_none s _ hstale) hkey, hreply]
  simp [getAccessTokenResume, readIamReply, ht, mul_comm]

/-- C17, witness: the first fetch of a fresh process in the sample environment
(clock 1000, `expires_in` 3600). -/
theorem getAccessToken_caches_with_expiry_witness :
    (getAccessToken sampleEnv State.initial).1 = .ok "token-0" ∧
      (getAccessToken sampleEnv State.initial).2.cachedToken = some "token-0" ∧
      (getAccessToken sampleEnv State.initial).2.tokenExpiration =
        some (sampleEnv.clock State.initial.clockReads + 1000 * 3600) :=
  getAccessToken_caches_with_expiry sampleEnv State.initial "token-0" 3600
    (by rintro ⟨tok, e, h, -⟩; cases h) ⟨"key", rfl, by decide⟩ (by decide) (by decide)

/-- C18: when `getAccessToken` fetches (cache not usable, API key configured)
and the request to the identity provider is rejected, or its response carries
no `access_token`, the call fails with the wrapped error after exactly one
identity-provider request: there is no retry. -/
theorem getAccessToken_fetch_failure_not_retried (env : Env) (s : State)
    (hstale : ¬ CacheFresh s (env.clock s.clockReads)) (hkey : ApiKeyConfigured env) :
    (∀ message, env.iam s.iamCalls = .failure message →
      (getAccessToken env s).1 =
          .error { message := "Failed to get IBM Cloud access token: " ++ message,
                   status := none } ∧
        (getAccessToken env s).2.iamCalls = s.iamCalls + 1) ∧
    (∀ expiresIn, env.iam s.iamCalls = .ok none expiresIn →
      (getAccessToken env s).1 =
          .error { message := "Failed to get IBM Cloud access token: " ++
                     "Invalid response from IBM IAM token service",
                   status := none } ∧
        (getAccessToken env s).2.iamCalls = s.iamCalls + 1) := by
  have hrun := getAccessToken_stale env s (cachedIfValid_eq_none s _ hstale) hkey
  constructor
  · intro message hreply
    rw [hrun, hreply]
    exact ⟨rfl, rfl⟩
  · intro expiresIn hreply
    rw [hrun, hreply]
    exact ⟨rfl, rfl⟩

/-- C18, witness: the identity provider cannot be reached. -/
theorem getAccessToken_fetch_failure_not_retried_witness :
    (getAccessToken iamDownEnv State.initial).1 =
        .error { message := "Failed to get IBM Cloud access token: " ++ "connect ECONNREFUSED",
                 status := none } ∧
      (getAccessToken iamDownEnv State.initial).2.iamCalls = State.initial.iamCalls + 1 :=
  (getAccessToken_fetch_failure_not_retried iamDownEnv State.initial
    (by rintro ⟨tok, e, h, -⟩; cases h) ⟨"key", rfl, by decide⟩).1 "connect ECONNREFUSED" rfl

/-! ## Inference client: unparseable text, shape of the result -/

/-- C11, counterexample: a generated text made of one space is not empty,
`JSON.parse` rejects it and it holds no brace-delimited span, yet the failure
is the empty-response one, not the unparseable one. -/
theorem generateSoilStory_blank_text_is_empty_response :
    (" " : String) ≠ "" ∧ blankEnv.jsonParse " " = none ∧ extractJson " " = none ∧
      ∃ final, generateSoilStory blankEnv sampleSoil 1 State.initial =
        some (.error
          { message := "Failed to generate soil story: Empty response from IBM Granite API",
            status := none }, final) := by
  refine ⟨by decide, rfl, by decide, _, rfl⟩

/-- C11, amended: for every generated text that is neither empty nor made of
whitespace only, and for which `JSON.parse` rejects both the whole text and the
brace-delimited span (in particular when there is no such span),
`generateSoilStory` fails, for any fuel, with the unparseable error ("Failed to
parse the generated soil story" behind the fixed text) after one provider
request, and returns no value. -/
theorem generateSoilStory_unparseable (env : Env) (soilData : SoilData) (fuel : Nat)
    (s s1 : State) (tok text : String)
    (htoken : getAccessToken env s = (.ok tok, s1))
    (hreply : env.provider s1.providerCalls soilData = .ok (some (some text)))
    (hnonblank : isEmptyText (some text) = false)
    (hwhole : env.jsonParse text = none)
    (hspan : ∀ span, extractJson text = some span → env.jsonParse span = none) :
    ∃ final, generateSoilStory env soilData (fuel + 1) s =
        some (.error
          { message := "Failed to generate soil story: Failed to parse the generated soil story",
            status := none }, final) ∧
      final.providerCalls = s.providerCalls + 1 := by
  have hmsg : nonAuthFailureMessage env (.ok (some (some text))) =
      some "Failed to parse the generated soil story" := by
    have hb : ¬ (text.toList.all isTrimmed = true) := by
      intro h
      have : isEmptyText (some text) = true := h
      rw [hnonblank] at this
      cases this
    have hx : (extractJson text).bind env.jsonParse = none := by
      cases hx : extractJson text with
      | none => rfl
      | some span => simpa using hspan span hx
    simp only [nonAuthFailureMessage]
    rw [if_neg hb, if_pos]
    exact ⟨by simp [hwhole], by simp [hx]⟩
  obtain ⟨e, he, hm, hs⟩ := readProviderReply_of_nonAuthFailure env _ _ hmsg
  have hframe := getAccessToken_frame env s
  rw [htoken] at hframe
  have hattempt := generateSoilStoryAttempt_of_token env soilData s s1 tok htoken
  rw [hreply, he] at hattempt
  refine ⟨{ s1 with providerCalls := s1.providerCalls + 1 }, ?_, ?_⟩
  · rw [generateSoilStory_of_error env soilData fuel s _ e hattempt hs, storyError, hm]
    rfl
  · exact congrArg (fun n => n + 1) hframe.1

/-- C11, witness: the provider answers with prose that holds no brace. -/
theorem generateSoilStory_unparseable_witness :
    ∃ final, generateSoilStory proseEnv sampleSoil 1 State.initial =
        some (.error
          { message := "Failed to generate soil story: Failed to parse the generated soil story",
            status := none }, final) ∧
      final.providerCalls = State.initial.providerCalls + 1 :=
  generateSoilStory_unparseable proseEnv sampleSoil 0 State.initial
    (getAccessToken proseEnv State.initial).2 "token-0" "The soil is fine." (by decide)
    (by decide) (by decide) rfl (by
      intro span h
      have hnone : extractJson "The soil is fine." = none := by decide
      rw [hnone] at h
      cases h)

theorem readProviderReply_ok_inv (env : Env) (reply : ProviderReply) (value : Json)
    (h : readProviderReply env reply = .ok value) :
    ∃ text path, reply = .ok (some (some text)) ∧ isEmptyText (some text) = false ∧
      parseGeneratedText env text = .ok (path, value) := by
  cases reply with
  | networkError message => cases h
  | httpError status message => cases h
  | ok generated =>
    cases generated with
    | none => cases h
    | some g =>
      cases g with
      | none =>
        simp [readProviderReply, isEmptyText] at h
      | some text =>
        cases hb : isEmptyText (some text) with
        | true => simp [readProviderReply, hb] at h
        | false =>
          simp only [readProviderReply, hb, Bool.false_eq_true, if_false,
            Option.getD_some] at h
          cases hp : parseGeneratedText env text with
          | error e =>
            rw [hp] at h
            cases h
          | ok result =>
            obtain ⟨path, v⟩ := result
            rw [hp] at h
            simp only [Except.ok.injEq] at h
            subst h
            exact ⟨text, path, rfl, hb, hp⟩

theorem generateSoilStoryAttempt_ok_inv (env : Env) (soilData : SoilData) (s s1 : State)
    (value : Json) (h : generateSoilStoryAttempt env soilData s = (.ok value, s1)) :
    ∃ k, readProviderReply env (env.provider k soilData) = .ok value := by
  unfold generateSoilStoryAttempt at h
  cases ht : getAccessToken env s with
  | mk r s0 =>
    rw [ht] at h
    cases r with
    | error e =>
      simp only [Prod.mk.injEq] at h
      cases h.1
    | ok tok =>
      simp only [Prod.mk.injEq] at h
      exact ⟨_, h.1⟩

/-- C12, counterexample: the provider answers with the text `42`;
`generateSoilStory` succeeds and returns the number 42, a value without story,
soil_health, issues, recommendations or suitable_plants. -/
theorem generateSoilStory_returns_a_number :
    (∃ final, generateSoilStory numberEnv sampleSoil 1 State.initial =
        some (.ok (.num 42 0), final)) ∧
      Json.prop (.num 42 0) "story" = none ∧ Json.prop (.num 42 0) "soil_health" = none := by
  refine ⟨⟨_, rfl⟩, rfl, rfl⟩

/-- C12, amended: whenever `generateSoilStory` returns successfully, the
returned value is exactly what the parsing block yields for the non-empty
generated text of one of the provider's replies: the result of `JSON.parse` on
the whole text or, failing that, on its brace-delimited span.  Its shape is not
checked. -/
theorem generateSoilStory_returns_parsed_value (env : Env) (soilData : SoilData) (fuel : Nat)
    (s final : State) (value : Json)
    (h : generateSoilStory env soilData fuel s = some (.ok value, final)) :
    ∃ k text path, env.provider k soilData = .ok (some (some text)) ∧
      isEmptyText (some text) = false ∧ parseGeneratedText env text = .ok (path, value) := by
  induction fuel generalizing s final with
  | zero => cases h
  | succ fuel ih =>
    rw [generateSoilStory] at h
    cases ha : generateSoilStoryAttempt env soilData s with
    | mk r s1 =>
      rw [ha] at h
      cases r with
      | ok v =>
        simp only [Option.some.injEq, Prod.mk.injEq, Except.ok.injEq] at h
        obtain ⟨k, hk⟩ := generateSoilStoryAttempt_ok_inv env soilData s s1 v ha
        rw [h.1] at hk
        obtain ⟨text, path, h1, h2, h3⟩ := readProviderReply_ok_inv env _ value hk
        exact ⟨k, text, path, h1, h2, h3⟩
      | error e =>
        simp only at h
        split at h
        · cases hr : forceRefreshToken env s1 with
          | mk r2 s2 =>
            rw [hr] at h
            cases r2 with
            | error e2 =>
              simp only [Option.some.injEq, Prod.mk.injEq] at h
              cases h.1
            | ok tok2 =>
              simp only at h
              cases hrec : generateSoilStory env soilData fuel s2 with
              | none =>
                rw [hrec] at h
                cases h
              | some out =>
                obtain ⟨r3, s3⟩ := out
                rw [hrec] at h
                cases r3 with
                | error e3 =>
                  simp only [Option.some.injEq, Prod.mk.injEq] at h
                  cases h.1
                | ok v3 =>
                  simp only [Option.some.injEq, Prod.mk.injEq, Except.ok.injEq] at h
                  rw [h.1] at hrec
                  exact ih s2 s3 hrec
        · simp only [Option.some.injEq, Prod.mk.injEq] at h
          cases h.1

/-- C12, witness: the successful call of the sample environment returns what
the parsing block yields for the reply, an empty object. -/
theorem generateSoilStory_returns_parsed_value_witness :
    ∃ k text path, sampleEnv.provider k sampleSoil = .ok (some (some text)) ∧
      isEmptyText (some text) = false ∧
      parseGeneratedText sampleEnv text = .ok (path, .obj []) :=
  generateSoilStory_returns_parsed_value sampleEnv sampleSoil 1 State.initial
    { (getAccessToken sampleEnv State.initial).2 with providerCalls := 1 } (.obj []) rfl

/-! ## Speech synthesizer: failed fetches -/

/-- C13, the code at the failing input: the text has two segments, the first
download succeeds and the second fails with a request error.  `generateAudio`
fails, and the chunk file of the first segment is still in the audio directory
afterwards. -/
theorem generateAudio_leaves_chunk_after_failure :
    ∃ final,
      generateAudio secondDownloadFailsEnv (some (.str "Loam is rich. Clay is dense."))
          State.initial = some (.error (audioError "socket hang up"), final) ∧
        final.files = [("audio/chunk_0_id1.mp3", [1])] := by
  refine ⟨_, rfl, ?_⟩
  decide

/-- C14, the code at the failing input: the text has two segments and the
fetch of the first is answered with status 500 and an error page.
`generateAudio` does not fail: it stores the page as the chunk of that
segment, goes on to fetch the second segment (two downloads are started), and
returns the path of an output file that holds the error page. -/
theorem generateAudio_returns_path_after_error_status :
    errorStatusEnv.ttsSplit (some (.str "Loam is rich. Clay is dense.")) = .ok ["u0", "u1"] ∧
      errorStatusEnv.download 0 "u0" = .response 500 errorPage ∧
      ∃ final,
        generateAudio errorStatusEnv (some (.str "Loam is rich. Clay is dense."))
            State.initial = some (.ok "/audio/soil_story_id0.mp3", final) ∧
          final.downloads = 2 ∧
          readFile final.files (joinPath errorStatusEnv.audioDir "soil_story_id0.mp3") =
            some errorPage := by
  refine ⟨rfl, rfl, _, rfl, ?_, ?_⟩
  · decide
  · decide

theorem downloadChunks_fails_at (env : Env) (pre : List String) (u : String)
    (post : List String) (message : String) :
    ∀ (i : Nat) (chunkFiles : List String) (s : State),
      (∀ j url, pre[j]? = some url →
        ∃ status body, env.download (s.downloads + j) url = .response status body) →
      env.download (s.downloads + pre.length) u = .requestError message →
      ∃ final,
        downloadChunks env (pre ++ u :: post) i chunkFiles s = some (.error message, final) ∧
        final.downloads = s.downloads + pre.length + 1 := by
  induction pre with
  | nil =>
    intro i chunkFiles s _ hfail
    simp only [List.length_nil, Nat.add_zero] at hfail
    simp only [List.nil_append, downloadChunks, hfail]
    exact ⟨_, rfl, rfl⟩
  | cons url pre ih =>
    intro i chunkFiles s hbefore hfail
    obtain ⟨status, body, hbody⟩ := hbefore 0 url (by simp)
    simp only [Nat.add_zero] at hbody
    simp only [List.cons_append, downloadChunks, hbody]
    obtain ⟨final, h1, h2⟩ := ih (i + 1)
      (chunkFiles ++ [joinPath env.audioDir
        ("chunk_" ++ toString i ++ "_" ++ env.uuid s.uuidCalls ++ ".mp3")])
      { s with uuidCalls := s.uuidCalls + 1, downloads := s.downloads + 1,
               files := writeFile s.files (joinPath env.audioDir
                 ("chunk_" ++ toString i ++ "_" ++ env.uuid s.uuidCalls ++ ".mp3")) body }
      (by
        intro j url2 hj
        have := hbefore (j + 1) url2 (by simpa using hj)
        simpa [Nat.add_assoc, Nat.add_comm 1 j] using this)
      (by
        simpa [Nat.add_assoc, Nat.add_comm 1 pre.length] using hfail)
    refine ⟨final, h1, ?_⟩
    rw [h2]
    simp only [List.length_cons]
    omega

theorem downloadChunks_pending_at (env : Env) (pre : List String) (u : String)
    (post : List String) (statusCode : Nat) (received : List Nat) :
    ∀ (i : Nat) (chunkFiles : List String) (s : State),
      (∀ j url, pre[j]? = some url →
        ∃ status body, env.download (s.downloads + j) url = .response status body) →
      env.download (s.downloads + pre.length) u = .brokenResponse statusCode received →
      downloadChunks env (pre ++ u :: post) i chunkFiles s = none := by
  induction pre with
  | nil =>
    intro i chunkFiles s _ hbroken
    simp only [List.length_nil, Nat.add_zero] at hbroken
    simp only [List.nil_append, downloadChunks, hbroken]
  | cons url pre ih =>
    intro i chunkFiles s hbefore hbroken
    obtain ⟨status, body, hbody⟩ := hbefore 0 url (by simp)
    simp only [Nat.add_zero] at hbody
    simp only [List.cons_append, downloadChunks, hbody]
    exact ih (i + 1)
      (chunkFiles ++ [joinPath env.audioDir
        ("chunk_" ++ toString i ++ "_" ++ env.uuid s.uuidCalls ++ ".mp3")])
      { s with uuidCalls := s.uuidCalls + 1, downloads := s.downloads + 1,
               files := writeFile s.files (joinPath env.audioDir
                 ("chunk_" ++ toString i ++ "_" ++ env.uuid s.uuidCalls ++ ".mp3")) body }
      (by
        intro j url2 hj
        have := hbefore (j + 1) url2 (by simpa using hj)
        simpa [Nat.add_assoc, Nat.add_comm 1 j] using this)
      (by
        simpa [Nat.add_assoc, Nat.add_comm 1 pre.length] using hbroken)

/-- The request-error path of the download loop: for a text split into the
segments `pre ++ u :: post` (so that `u` is segment number `pre.length`), if
the fetches of the segments before `u` are answered by complete responses and
the request for `u` emits an error with no response, then `generateAudio`
fails as a whole with that error, returns no path, and has started exactly
`pre.length + 1` downloads: none for a segment after `u`. -/
theorem generateAudio_fails_on_request_error (env : Env) (text : Option Json) (s : State)
    (pre : List String) (u : String) (post : List String) (message : String)
    (hsplit : env.ttsSplit text = .ok (pre ++ u :: post))
    (hbefore : ∀ j url, pre[j]? = some url →
      ∃ status body, env.download (s.downloads + j) url = .response status body)
    (hfail : env.download (s.downloads + pre.length) u = .requestError message) :
    ∃ final, generateAudio env text s = some (.error (audioError message), final) ∧
      final.downloads = s.downloads + pre.length + 1 := by
  obtain ⟨final, h1, h2⟩ := downloadChunks_fails_at env pre u post message 0 []
    { s with uuidCalls := s.uuidCalls + 1 } hbefore hfail
  refine ⟨final, ?_, h2⟩
  simp only [generateAudio, hsplit, h1]

/-- Two segments, the request for the second emits an error. -/
theorem generateAudio_fails_on_request_error_witness :
    ∃ final, generateAudio secondDownloadFailsEnv (some (.str "Loam is rich. Clay is dense."))
        State.initial = some (.error (audioError "socket hang up"), final) ∧
      final.downloads = State.initial.downloads + ["u0"].length + 1 :=
  generateAudio_fails_on_request_error secondDownloadFailsEnv _ State.initial ["u0"] "u1" []
    "socket hang up" rfl
    (by
      intro j url hj
      cases j with
      | zero => exact ⟨200, [1], rfl⟩
      | succ j => simp at hj)
    rfl

/-- A response that breaks off: for a text split into the segments
`pre ++ u :: post`, if the fetches of the segments before `u` are answered by
complete responses and the response for `u` breaks off before its end, then
`generateAudio` never returns: it neither fails nor yields a path. -/
theorem generateAudio_pending_on_broken_response (env : Env) (text : Option Json)
    (s : State) (pre : List String) (u : String) (post : List String)
    (statusCode : Nat) (received : List Nat)
    (hsplit : env.ttsSplit text = .ok (pre ++ u :: post))
    (hbefore : ∀ j url, pre[j]? = some url →
      ∃ status body, env.download (s.downloads + j) url = .response status body)
    (hbroken : env.download (s.downloads + pre.length) u =
      .brokenResponse statusCode received) :
    generateAudio env text s = none := by
  have h := downloadChunks_pending_at env pre u post statusCode received 0 []
    { s with uuidCalls := s.uuidCalls + 1 } hbefore hbroken
  simp only [generateAudio, hsplit, h]

/-- Two segments, the response for the second breaks off. -/
theorem generateAudio_pending_on_broken_response_witness :
    generateAudio brokenResponseEnv (some (.str "Loam is rich. Clay is dense."))
      State.initial = none :=
  generateAudio_pending_on_broken_response brokenResponseEnv _ State.initial ["u0"] "u1" []
    200 [2] rfl
    (by
      intro j url hj
      cases j with
      | zero => exact ⟨200, [1], rfl⟩
      | succ j => simp at hj)
    rfl

/-! ## Controller: failures of the collaborators -/

theorem getAccessTokenResume_audioCalls (now : Int) (reply : IamReply) (s : State) :
    (getAccessTokenResume now reply s).2.audioCalls = s.audioCalls := by
  unfold getAccessTokenResume
  cases readIamReply reply with
  | error e => rfl
  | ok v => rfl

theorem getAccessTokenBegin_audioCalls (env : Env) (s : State) :
    (getAccessTokenBegin env s).2.audioCalls = s.audioCalls := by
  unfold getAccessTokenBegin
  dsimp only
  split
  · rfl
  · split
    · rfl
    · split <;> rfl

theorem getAccessToken_audioCalls (env : Env) (s : State) :
    (getAccessToken env s).2.audioCalls = s.audioCalls := by
  have hb := getAccessTokenBegin_audioCalls env s
  unfold getAccessToken finishTokenStep
  cases hstep : getAccessTokenBegin env s with
  | mk step s1 =>
    rw [hstep] at hb
    cases step with
    | done result => exact hb
    | awaiting now request =>
      exact (getAccessTokenResume_audioCalls now (env.iam request) s1).trans hb

theorem generateSoilStoryAttempt_audioCalls (env : Env) (soilData : SoilData) (s : State) :
    (generateSoilStoryAttempt env soilData s).2.audioCalls = s.audioCalls := by
  have h := getAccessToken_audioCalls env s
  unfold generateSoilStoryAttempt
  cases ht : getAccessToken env s with
  | mk r s1 =>
    rw [ht] at h
    cases r with
    | error e => exact h
    | ok tok => exact h

theorem generateSoilStory_audioCalls (env : Env) (soilData : SoilData) (fuel : Nat)
    (s final : State) (r : Except JsError Json)
    (h : generateSoilStory env soilData fuel s = some (r, final)) :
    final.audioCalls = s.audioCalls := by
  induction fuel generalizing s final r with
  | zero => cases h
  | succ fuel ih =>
    have ha := generateSoilStoryAttempt_audioCalls env soilData s
    rw [generateSoilStory] at h
    cases hat : generateSoilStoryAttempt env soilData s with
    | mk r1 s1 =>
      rw [hat] at h ha
      cases r1 with
      | ok v =>
        simp only [Option.some.injEq, Prod.mk.injEq] at h
        rw [← h.2]
        exact ha
      | error e =>
        simp only at h
        split at h
        · have hf : (forceRefreshToken env s1).2.audioCalls = s1.audioCalls :=
            getAccessToken_audioCalls env _
          cases hr : forceRefreshToken env s1 with
          | mk r2 s2 =>
            rw [hr] at h hf
            cases r2 with
            | error e2 =>
              simp only [Option.some.injEq, Prod.mk.injEq] at h
              rw [← h.2]
              exact hf.trans ha
            | ok tok2 =>
              simp only at h
              cases hrec : generateSoilStory env soilData fuel s2 with
              | none =>
                rw [hrec] at h
                cases h
              | some out =>
                obtain ⟨r3, s3⟩ := out
                rw [hrec] at h
                have h3 := ih s2 s3 r3 hrec
                cases r3 with
                | error e3 =>
                  simp only [Option.some.injEq, Prod.mk.injEq] at h
                  rw [← h.2]
                  exact h3.trans (hf.trans ha)
                | ok v3 =>
                  simp only [Option.some.injEq, Prod.mk.injEq] at h
                  rw [← h.2]
                  exact h3.trans (hf.trans ha)
        · simp only [Option.some.injEq, Prod.mk.injEq] at h
          rw [← h.2]
          exact ha

theorem processImage_audioCalls (env : Env) (image : Option String) (s : State) :
    (processImage env image s).2.audioCalls = s.audioCalls := by
  unfold processImage
  split
  · rfl
  · split
    · rfl
    · dsimp only
      split <;> rfl

/-- C15: for a request that passes validation and whose image step succeeds:
if the story generator fails with error `e`, the response is status 500 with
message "Failed to generate soil story: " followed by `e.message`, and
`generateAudio` has not been invoked; if the story generator succeeds and
`generateAudio` fails with error `e`, the response is likewise status 500 with
`e.message` behind the fixed text.  No 200 response is produced in either
case. -/
theorem generateStory_surfaces_collaborator_failure (env : Env) (req : Request) (fuel : Nat)
    (s s1 : State) (parsedPH parsedMoisture : JsNum) (imageAnalysis : String)
    (hvalid : validateRequest env req = .ok (parsedPH, parsedMoisture))
    (himage : processImage env req.base64Image s = (.ok imageAnalysis, s1)) :
    (∀ e s2,
      generateSoilStory env
          { pH := env.numberToString parsedPH, moisture := env.numberToString parsedMoisture,
            imageAnalysis := imageAnalysis }
          fuel { s1 with storyCalls := s1.storyCalls + 1 } = some (.error e, s2) →
        generateStory env req fuel s =
            some ({ status := 500,
                    body := .error ("Failed to generate soil story: " ++ e.message) }, s2) ∧
          s2.audioCalls = s.audioCalls) ∧
    (∀ storyData s2 e s3,
      generateSoilStory env
          { pH := env.numberToString parsedPH, moisture := env.numberToString parsedMoisture,
            imageAnalysis := imageAnalysis }
          fuel { s1 with storyCalls := s1.storyCalls + 1 } = some (.ok storyData, s2) →
        storyData ≠ .null →
        generateAudio env (storyData.prop "story")
            { s2 with audioCalls := s2.audioCalls + 1 } = some (.error e, s3) →
        generateStory env req fuel s =
          some ({ status := 500,
                  body := .error ("Failed to generate soil story: " ++ e.message) }, s3)) := by
  constructor
  · intro e s2 hstory
    constructor
    · simp only [generateStory, hvalid, himage, hstory, serverError]
    · have h1 := generateSoilStory_audioCalls env _ fuel _ s2 _ hstory
      have h2 := processImage_audioCalls env req.base64Image s
      rw [himage] at h2
      exact h1.trans h2
  · intro storyData s2 e s3 hstory hnull haudio
    cases storyData with
    | null => exact absurd rfl hnull
    | bool b => simp only [generateStory, hvalid, himage, hstory, haudio, serverError]
    | num m x => simp only [generateStory, hvalid, himage, hstory, haudio, serverError]
    | str t => simp only [generateStory, hvalid, himage, hstory, haudio, serverError]
    | arr items => simp only [generateStory, hvalid, himage, hstory, haudio, serverError]
    | obj members => simp only [generateStory, hvalid, himage, hstory, haudio, serverError]

/-- C15, witness: a valid request (pH 7, moisture 50) while the provider
answers with prose that holds no JSON. -/
theorem generateStory_surfaces_collaborator_failure_witness :
    ∃ final,
      generateStory proseEnv
          { pH := .num (.fin 7), moisture := .num (.fin 50), base64Image := none }
          1 State.initial =
        some ({ status := 500,
                body := .error ("Failed to generate soil story: " ++
                  "Failed to generate soil story: Failed to parse the generated soil story") },
          final) ∧
      final.audioCalls = State.initial.audioCalls :=
  ⟨_, (generateStory_surfaces_collaborator_failure proseEnv
      { pH := .num (.fin 7), moisture := .num (.fin 50), base64Image := none }
      1 State.initial State.initial (.fin 7) (.fin 50) "" rfl rfl).1
      { message := "Failed to generate soil story: Failed to parse the generated soil story",
        status := none }
      _ rfl⟩

/-! ## Playback controller -/

/-- C19, the code at the failing input: on a device without connectivity every
load attempt fails.  After the mount load and any number `n` of retries, one
more retry is pending, again of the first render's `loadSound` and again after
1000 ms; all `n + 1` delays scheduled so far are 1000 ms, and the retry counter
stays at 1.  So the retries do not stop after the third, and the delays are
not 1000, 2000, 4000. -/
theorem loadSound_retries_forever_offline (n : Nat) :
    afterRetries offlineDevice n =
      { state := { sound := none, isPlaying := false, isLoading := false,
                   audioError := some ("Error loading audio: " ++
                     "No internet connection. Please check your connection and try again."),
                   position := 0, duration := 0, retryCount := 1, isBuffering := false }
        appState := .active
        timers := [{ delay := 1000, closure := PlayerState.initial }]
        scheduled := List.replicate (n + 1) 1000
        created := []
        unloaded := []
        netFetches := n + 1
        statusCalls := 0
        pauseCalls := 0 } := by
  induction n with
  | zero => decide
  | succ n ih =>
    rw [afterRetries, ih]
    have hrep : List.replicate (n + 1) 1000 ++ [1000] = List.replicate (n + 1 + 1) 1000 := by
      rw [List.replicate_succ' (n + 1)]
    simp only [fireTimer, loadSound, loadFailed, offlineDevice, PlayerState.initial]
    simp [hrep]

/-- C20, the code at the failing input: the sound is playing when the app goes
to the background, where the status reports position `p`; the position is
stored and the sound paused.  When the app comes back and the sound is no
longer loaded, the listener reloads it through the first render's `loadSound`,
which reads `position = 0`: the second `createAsync` is called with
`positionMillis = 0`, whatever `p` is, while the stored position is `p`. -/
theorem foreground_reload_starts_at_zero (p : Int) :
    (appStateListener (releasedDevice p) .background playingPlayer).state.position = p ∧
      (appStateListener (releasedDevice p) .background playingPlayer).state.isPlaying = false ∧
      (appStateListener (releasedDevice p) .active
        (appStateListener (releasedDevice p) .background playingPlayer)).created = [0, 0] ∧
      (appStateListener (releasedDevice p) .active
        (appStateListener (releasedDevice p) .background playingPlayer)).state.position = p := by
  simp [appStateListener, handleAppStateChange, releasedDevice, playingPlayer, Player.initial,
    AppStatus.isAway, loadSound, createSound, PlayerState.initial]

/-! ## Playback controller: lifecycle, connectivity, retry, seek, status -/

/-- C21: when the app is active and changes to inactive or background while a
sound is held and playing, the status read reports it loaded at position
`status.positionMillis`, and the transport accepts the pause, then
`handleAppStateChange` calls `pauseAsync` once and leaves the state with
`isPlaying = false` and `position` equal to the reported position. -/
theorem handleAppStateChange_pauses_on_leave (dev : Device) (closure : PlayerState)
    (nextAppState : AppStatus) (w : Player) (handle : Nat) (status : PlaybackStatus)
    (hactive : w.appState = .active) (haway : nextAppState.isAway = true)
    (hsound : w.state.sound = some handle) (hplaying : w.state.isPlaying = true)
    (hstatus : dev.getStatusAsync w.statusCalls = .ok status)
    (hloaded : status.isLoaded = true)
    (hpause : dev.pauseAsync w.pauseCalls = none) :
    (handleAppStateChange dev closure nextAppState w).state.isPlaying = false ∧
      (handleAppStateChange dev closure nextAppState w).state.position =
        status.positionMillis ∧
      (handleAppStateChange dev closure nextAppState w).pauseCalls = w.pauseCalls + 1 ∧
      (handleAppStateChange dev closure nextAppState w).appState = nextAppState := by
  simp [handleAppStateChange, hactive, haway, hsound, hplaying, hstatus, hloaded, hpause]

/-- C21, witness: the playing screen goes to the background while the status
reports position 5000. -/
theorem handleAppStateChange_pauses_on_leave_witness :
    (handleAppStateChange (releasedDevice 5000) PlayerState.initial .background
        playingPlayer).state.isPlaying = false ∧
      (handleAppStateChange (releasedDevice 5000) PlayerState.initial .background
        playingPlayer).state.position = 5000 ∧
      (handleAppStateChange (releasedDevice 5000) PlayerState.initial .background
        playingPlayer).pauseCalls = playingPlayer.pauseCalls + 1 ∧
      (handleAppStateChange (releasedDevice 5000) PlayerState.initial .background
        playingPlayer).appState = .background :=
  handleAppStateChange_pauses_on_leave (releasedDevice 5000) PlayerState.initial .background
    playingPlayer 0
    { isLoaded := true, positionMillis := 5000, durationMillis := some 60000,
      isPlaying := true, isBuffering := false, didJustFinish := false,
      isLooping := false, error := none }
    rfl rfl rfl rfl rfl rfl rfl

/-- C22: with an audio URI present, when `NetInfo.fetch()` reports no
connection, `loadSound` ends in the error state with the no-connection
message, and it has called neither `createAsync` nor `unloadAsync`; the held
sound is unchanged. -/
theorem loadSound_fails_without_connectivity (dev : Device) (closure : PlayerState)
    (w : Player) (huri : dev.fullAudioUri ≠ "")
    (hoffline : dev.netConnected w.netFetches = false) :
    (loadSound dev closure w).state.audioError =
        some ("Error loading audio: " ++
          "No internet connection. Please check your connection and try again.") ∧
      (loadSound dev closure w).state.isLoading = false ∧
      (loadSound dev closure w).created = w.created ∧
      (loadSound dev closure w).unloaded = w.unloaded ∧
      (loadSound dev closure w).state.sound = w.state.sound := by
  by_cases hretry : closure.retryCount < 3
  · simp [loadSound, huri, hoffline, loadFailed, hretry]
  · simp [loadSound, huri, hoffline, loadFailed, hretry]

/-- C22, witness: the mount load on a device without connectivity. -/
theorem loadSound_fails_without_connectivity_witness :
    (loadSound offlineDevice PlayerState.initial Player.initial).state.audioError =
        some ("Error loading audio: " ++
          "No internet connection. Please check your connection and try again.") ∧
      (loadSound offlineDevice PlayerState.initial Player.initial).state.isLoading = false ∧
      (loadSound offlineDevice PlayerState.initial Player.initial).created = [] ∧
      (loadSound offlineDevice PlayerState.initial Player.initial).unloaded = [] ∧
      (loadSound offlineDevice PlayerState.initial Player.initial).state.sound = none :=
  loadSound_fails_without_connectivity offlineDevice PlayerState.initial Player.initial
    (by decide) rfl

theorem loadSound_eq_begin_resume (dev : Device) (closure : PlayerState) (w : Player) :
    loadSound dev closure w =
      match loadSoundBegin dev w with
      | (.done, w1) => w1
      | (.awaitingNetInfo request, w1) => loadSoundResume dev closure request w1 := by
  by_cases huri : dev.fullAudioUri = ""
  · simp [loadSound, loadSoundBegin, huri]
  · simp only [loadSound, loadSoundBegin, huri, if_false, loadSoundResume]

theorem retryAudio_counter (dev : Device) (w : Player) :
    (retryAudio dev w).2.state.retryCount = 0 := by
  by_cases huri : dev.fullAudioUri = ""
  · simp [retryAudio, loadSoundBegin, huri]
  · simp [retryAudio, loadSoundBegin, huri]

theorem retryAudio_starts_load (dev : Device) (w : Player) (huri : dev.fullAudioUri ≠ "") :
    (retryAudio dev w).1 = .awaitingNetInfo w.netFetches ∧
      (retryAudio dev w).2.netFetches = w.netFetches + 1 ∧
      (retryAudio dev w).2.state.isLoading = true ∧
      (retryAudio dev w).2.state.audioError = none := by
  simp [retryAudio, loadSoundBegin, huri]

/-- C23, counterexample: in the error state with the attempt counter at 3, a
connectivity event reporting a connection changes nothing: the counter stays
at 3 and no load is started. -/
theorem netInfoListener_ignores_exhausted_counter :
    exhaustedPlayer.state.retryCount = 3 ∧
      isTruthyText exhaustedPlayer.state.audioError = true ∧
      netInfoListener readyDevice exhaustedState true exhaustedPlayer =
        (.done, exhaustedPlayer) := by
  refine ⟨rfl, by decide, by decide⟩

/-- C23, amended: a connectivity event reporting a connection triggers
`retryAudio` when the listener's render saw an error and an attempt counter
below 3: the counter is then reset to 0 and, the audio URI being present, a
new load is started (its connectivity check is sent).  When that render saw a
counter of 3 or more, the listener does nothing, whatever the event reports:
it leaves the screen as it is and starts no load. -/
theorem netInfoListener_retries_below_three (dev : Device) (closure : PlayerState)
    (w : Player) :
    (isTruthyText closure.audioError = true → closure.retryCount < 3 →
      netInfoListener dev closure true w = retryAudio dev w ∧
      (netInfoListener dev closure true w).2.state.retryCount = 0 ∧
      (dev.fullAudioUri ≠ "" →
        (netInfoListener dev closure true w).1 = .awaitingNetInfo w.netFetches ∧
        (netInfoListener dev closure true w).2.netFetches = w.netFetches + 1)) ∧
    (3 ≤ closure.retryCount →
      ∀ isConnected, netInfoListener dev closure isConnected w = (.done, w)) := by
  constructor
  · intro herror hcount
    have hrun : netInfoListener dev closure true w = retryAudio dev w := by
      simp [netInfoListener, herror, hcount]
    rw [hrun]
    refine ⟨rfl, retryAudio_counter dev w, ?_⟩
    intro huri
    exact ⟨(retryAudio_starts_load dev w huri).1, (retryAudio_starts_load dev w huri).2.1⟩
  · intro hcount isConnected
    have : ¬ closure.retryCount < 3 := by omega
    simp [netInfoListener, this]

/-- C23, witness: the error state with the attempt counter at 1 on a connected
device; and the counter at 3, where nothing happens. -/
theorem netInfoListener_retries_below_three_witness :
    (netInfoListener readyDevice { exhaustedState with retryCount := 1 } true
        exhaustedPlayer).2.state.retryCount = 0 ∧
      netInfoListener readyDevice exhaustedState true exhaustedPlayer =
        (.done, exhaustedPlayer) :=
  ⟨((netInfoListener_retries_below_three readyDevice { exhaustedState with retryCount := 1 }
      exhaustedPlayer).1 (by decide) (by decide)).2.1,
   (netInfoListener_retries_below_three readyDevice exhaustedState exhaustedPlayer).2
      (by decide) true⟩

/-- C24: for every screen state, whatever its attempt counter, when
`retryAudio` returns the counter is 0; and, the audio URI being present, the
load it called is under way: the screen is loading, the error is cleared and
the connectivity check of the new attempt has been sent. -/
theorem retryAudio_resets_and_loads (dev : Device) (w : Player) :
    (retryAudio dev w).2.state.retryCount = 0 ∧
      (dev.fullAudioUri ≠ "" →
        (retryAudio dev w).1 = .awaitingNetInfo w.netFetches ∧
        (retryAudio dev w).2.netFetches = w.netFetches + 1 ∧
        (retryAudio dev w).2.state.isLoading = true ∧
        (retryAudio dev w).2.state.audioError = none) :=
  ⟨retryAudio_counter dev w, retryAudio_starts_load dev w⟩

/-- C24, witness: the Retry control pressed in the error state with the
counter at 3. -/
theorem retryAudio_resets_and_loads_witness :
    (retryAudio readyDevice exhaustedPlayer).2.state.retryCount = 0 ∧
      (retryAudio readyDevice exhaustedPlayer).1 = .awaitingNetInfo 4 ∧
      (retryAudio readyDevice exhaustedPlayer).2.state.isLoading = true :=
  ⟨(retryAudio_resets_and_loads readyDevice exhaustedPlayer).1,
   ((retryAudio_resets_and_loads readyDevice exhaustedPlayer).2 (by decide)).1,
   ((retryAudio_resets_and_loads readyDevice exhaustedPlayer).2 (by decide)).2.2.1⟩

/-- C25, counterexample: `seekAudio` called with -5000 on a loaded sound of
60 seconds passes -5000 to the transport and stores -5000 as the position,
where the clamped value would be 0. -/
theorem seekAudio_stores_negative_position :
    (seekAudio readyDevice loadedState (-5000) loadedPlayer).seeks = [-5000] ∧
      (seekAudio readyDevice loadedState (-5000) loadedPlayer).state.position = -5000 ∧
      clampPosition (-5000) loadedState.duration = 0 := by
  refine ⟨by decide, by decide, by decide⟩

/-- C25, amended: for a held sound and a transport that accepts the call,
`seekAudio` passes the requested value to `setPositionAsync` and stores it as
the position unchanged, without clamping.  The clamping is done by the
controls that call it: the rewind control requests `max 0 (position - 10000)`
and the forward control `min duration (position + 10000)`, which, for
`0 ≤ position ≤ duration`, are `position - 10000` and `position + 10000`
clamped into the interval from 0 to `duration`. -/
theorem seekAudio_passes_value_through (dev : Device) (closure : PlayerState) (w : Player)
    (handle : Nat) (hsound : closure.sound = some handle)
    (haccept : dev.setPositionAsync w.seeks.length = none) :
    (∀ v, (seekAudio dev closure v w).seeks = w.seeks ++ [v] ∧
      (seekAudio dev closure v w).state.position = v) ∧
    (0 ≤ closure.position → closure.position ≤ closure.duration →
      (rewindPress dev closure w).state.position =
          clampPosition (closure.position - 10000) closure.duration ∧
        (rewindPress dev closure w).seeks =
          w.seeks ++ [clampPosition (closure.position - 10000) closure.duration] ∧
        (forwardPress dev closure w).state.position =
          clampPosition (closure.position + 10000) closure.duration ∧
        (forwardPress dev closure w).seeks =
          w.seeks ++ [clampPosition (closure.position + 10000) closure.duration]) := by
  have hseek : ∀ v, (seekAudio dev closure v w).seeks = w.seeks ++ [v] ∧
      (seekAudio dev closure v w).state.position = v := by
    intro v
    simp [seekAudio, hsound, haccept]
  refine ⟨hseek, ?_⟩
  intro h0 hd
  have hrewind : max 0 (closure.position - 10000) =
      clampPosition (closure.position - 10000) closure.duration := by
    unfold clampPosition
    split
    · omega
    · split <;> omega
  have hforward : min closure.duration (closure.position + 10000) =
      clampPosition (closure.position + 10000) closure.duration := by
    unfold clampPosition
    split
    · omega
    · split <;> omega
  unfold rewindPress forwardPress
  rw [hrewind, hforward]
  exact ⟨(hseek _).2, (hseek _).1, (hseek _).2, (hseek _).1⟩

/-- C25, witness: a sound of 60 seconds at position 5 seconds: a seek to
20 seconds lands there, rewind lands on 0 and forward on 15 seconds. -/
theorem seekAudio_passes_value_through_witness :
    (seekAudio readyDevice loadedState 20000 loadedPlayer).state.position = 20000 ∧
      (rewindPress readyDevice loadedState loadedPlayer).state.position =
        clampPosition (5000 - 10000) 60000 ∧
      (forwardPress readyDevice loadedState loadedPlayer).state.position =
        clampPosition (5000 + 10000) 60000 :=
  ⟨((seekAudio_passes_value_through readyDevice loadedState loadedPlayer 0 rfl rfl).1
      20000).2,
   ((seekAudio_passes_value_through readyDevice loadedState loadedPlayer 0 rfl rfl).2
      (by decide) (by decide)).1,
   ((seekAudio_passes_value_through readyDevice loadedState loadedPlayer 0 rfl rfl).2
      (by decide) (by decide)).2.2.1⟩

/-- C26: for every status update of a loaded sound with `didJustFinish` set
and `isLooping` not set, whatever the state before and whatever the callback's
render saw, the state after `onPlaybackStatusUpdate` has `position = 0`,
`isPlaying = false` and `isBuffering = false`. -/
theorem onPlaybackStatusUpdate_end_of_track (closure : PlayerState) (status : PlaybackStatus)
    (w : Player) (hloaded : status.isLoaded = true) (hfinish : status.didJustFinish = true)
    (hloop : status.isLooping = false) :
    (onPlaybackStatusUpdate closure status w).state.position = 0 ∧
      (onPlaybackStatusUpdate closure status w).state.isPlaying = false ∧
      (onPlaybackStatusUpdate closure status w).state.isBuffering = false := by
  simp [onPlaybackStatusUpdate, hloaded, hfinish, hloop]

/-- C26, witness: the end of a track of 60 seconds reached while playing. -/
theorem onPlaybackStatusUpdate_end_of_track_witness :
    (onPlaybackStatusUpdate loadedState
        { isLoaded := true, positionMillis := 60000, durationMillis := some 60000,
          isPlaying := true, isBuffering := true, didJustFinish := true,
          isLooping := false, error := none } playingPlayer).state.position = 0 ∧
      (onPlaybackStatusUpdate loadedState
        { isLoaded := true, positionMillis := 60000, durationMillis := some 60000,
          isPlaying := true, isBuffering := true, didJustFinish := true,
          isLooping := false, error := none } playingPlayer).state.isPlaying = false ∧
      (onPlaybackStatusUpdate loadedState
        { isLoaded := true, positionMillis := 60000, durationMillis := some 60000,
          isPlaying := true, isBuffering := true, didJustFinish := true,
          isLooping := false, error := none } playingPlayer).state.isBuffering = false :=
  onPlaybackStatusUpdate_end_of_track loadedState _ playingPlayer rfl rfl rfl

/-! ## Mock story generator -/

theorem uniquePlants_nodup_length (pHValue moistureValue : JsNum) :
    ((insertionOrder [] (suitablePlants pHValue moistureValue)).take 6).Nodup ∧
      ((insertionOrder [] (suitablePlants pHValue moistureValue)).take 6).length = 6 := by
  unfold suitablePlants
  split_ifs <;> decide

/-- C27: for every pH and moisture input, the `suitable_plants` list returned
by `generateMockSoilStory` has no duplicate entries and has exactly 6 entries
(hence at most 6). -/
theorem generateMockSoilStory_suitable_plants (env : Env) (soilData : SoilData) :
    (generateMockSoilStory env soilData).suitable_plants.Nodup ∧
      (generateMockSoilStory env soilData).suitable_plants.length ≤ 6 ∧
      (generateMockSoilStory env soilData).suitable_plants.length = 6 := by
  have h := uniquePlants_nodup_length (env.parseFloat soilData.pH)
    (env.parseFloat soilData.moisture)
  exact ⟨h.1, le_of_eq h.2, h.2⟩

theorem pHPoints_mem (pHValue : JsNum) :
    pHPoints pHValue = 20 ∨ pHPoints pHValue = 30 ∨ pHPoints pHValue = 40 ∨
      pHPoints pHValue = 50 := by
  unfold pHPoints
  split_ifs <;> simp

theorem moisturePoints_mem (moistureValue : JsNum) :
    moisturePoints moistureValue = 20 ∨ moisturePoints moistureValue = 30 ∨
      moisturePoints moistureValue = 40 ∨ moisturePoints moistureValue = 50 := by
  unfold moisturePoints
  split_ifs <;> simp

/-- C29: for every pH and moisture input, the score of `generateMockSoilStory`
is the sum of the pH points and the moisture points, each of which is 20, 30,
40 or 50; so the score lies between 40 and 100, `max_score` is 100, the score
is a multiple of 10, and the category is never "very poor". -/
theorem generateMockSoilStory_score (env : Env) (soilData : SoilData) :
    (generateMockSoilStory env soilData).soil_health.score =
        pHPoints (env.parseFloat soilData.pH) +
          moisturePoints (env.parseFloat soilData.moisture) ∧
      pHPoints (env.parseFloat soilData.pH) ∈ [20, 30, 40, 50] ∧
      moisturePoints (env.parseFloat soilData.moisture) ∈ [20, 30, 40, 50] ∧
      40 ≤ (generateMockSoilStory env soilData).soil_health.score ∧
      (generateMockSoilStory env soilData).soil_health.score ≤ 100 ∧
      (generateMockSoilStory env soilData).soil_health.max_score = 100 ∧
      (generateMockSoilStory env soilData).soil_health.score % 10 = 0 ∧
      (generateMockSoilStory env soilData).soil_health.category ≠ "very poor" := by
  have hp := pHPoints_mem (env.parseFloat soilData.pH)
  have hm := moisturePoints_mem (env.parseFloat soilData.moisture)
  have hscore : (generateMockSoilStory env soilData).soil_health.score =
      pHPoints (env.parseFloat soilData.pH) +
        moisturePoints (env.parseFloat soilData.moisture) := by
    simp [generateMockSoilStory]
  have hcat : (generateMockSoilStory env soilData).soil_health.category =
      categoryOf (pHPoints (env.parseFloat soilData.pH) +
        moisturePoints (env.parseFloat soilData.moisture)) := by
    simp [generateMockSoilStory]
  have hpMem : pHPoints (env.parseFloat soilData.pH) ∈ [20, 30, 40, 50] := by
    simp only [List.mem_cons, List.mem_singleton, List.mem_nil_iff, or_false]
    exact hp
  have hmMem : moisturePoints (env.parseFloat soilData.moisture) ∈ [20, 30, 40, 50] := by
    simp only [List.mem_cons, List.mem_singleton, List.mem_nil_iff, or_false]
    exact hm
  refine ⟨hscore, hpMem, hmMem, by omega, by omega, rfl, by omega, ?_⟩
  rw [hcat]
  unfold categoryOf
  split_ifs <;> first | decide | omega

/-! ## Inference client: the extracted span -/

theorem dropWhile_head_false {α : Type} (p : α → Bool) (l : List α) (x : α) (rest : List α)
    (h : l.dropWhile p = x :: rest) : p x = false := by
  induction l with
  | nil => cases h
  | cons a l ih =>
    rw [List.dropWhile_cons] at h
    by_cases ha : p a = true
    · rw [if_pos ha] at h
      exact ih h
    · rw [if_neg ha] at h
      cases h
      exact Bool.eq_false_iff.2 ha

theorem extractJson_span (text span : String) (h : extractJson text = some span) :
    ∃ before inner after, text.toList = before ++ span.toList ++ after ∧
      openBrace ∉ before ∧ closeBrace ∉ after ∧
      span.toList = openBrace :: (inner ++ [closeBrace]) := by
  unfold extractJson at h
  dsimp only at h
  generalize hfo : text.toList.dropWhile (fun c => c != openBrace) = fo at h
  generalize hdr : fo.reverse.dropWhile (fun c => c != closeBrace) = dr at h
  have hcs : text.toList.takeWhile (fun c => c != openBrace) ++ fo = text.toList := by
    rw [← hfo]
    exact List.takeWhile_append_dropWhile _ _
  have hrv : fo.reverse.takeWhile (fun c => c != closeBrace) ++ dr = fo.reverse := by
    rw [← hdr]
    exact List.takeWhile_append_dropWhile _ _
  have hfo2 : fo = dr.reverse ++ (fo.reverse.takeWhile (fun c => c != closeBrace)).reverse := by
    have := congrArg List.reverse hrv
    rw [List.reverse_append, List.reverse_reverse] at this
    exact this.symm
  have hbefore : openBrace ∉ text.toList.takeWhile (fun c => c != openBrace) := by
    intro hmem
    have := List.mem_takeWhile_imp hmem
    simp at this
  have hafter : closeBrace ∉ (fo.reverse.takeWhile (fun c => c != closeBrace)).reverse := by
    intro hmem
    have := List.mem_takeWhile_imp (List.mem_reverse.1 hmem)
    simp at this
  cases hdr2 : dr with
  | nil =>
    rw [hdr2] at h
    simp at h
  | cons y dr1 =>
    have hy : y = closeBrace := by
      have := dropWhile_head_false _ _ y dr1 (hdr.trans hdr2)
      simpa using this
    have hspan : span.toList = dr.reverse := by
      rw [hdr2] at h ⊢
      cases hsp : (y :: dr1).reverse with
      | nil => simp at hsp
      | cons z sp1 =>
        rw [hsp] at h
        simp only [Option.some.injEq] at h
        rw [← h]
        rfl
    have hdrrev : dr.reverse = dr1.reverse ++ [closeBrace] := by
      rw [hdr2, List.reverse_cons, hy]
    refine ⟨text.toList.takeWhile (fun c => c != openBrace), ?_⟩
    cases hin : dr1.reverse with
    | nil =>
      exfalso
      rw [hdrrev, hin] at hfo2
      have hhead := dropWhile_head_false _ _ closeBrace _ (hfo.trans hfo2)
      revert hhead
      decide
    | cons z inner =>
      have hz : z = openBrace := by
        rw [hdrrev, hin] at hfo2
        have := dropWhile_head_false _ _ z _ (hfo.trans hfo2)
        simpa using this
      refine ⟨inner, (fo.reverse.takeWhile (fun c => c != closeBrace)).reverse,
        ?_, hbefore, hafter, ?_⟩
      · rw [hspan, List.append_assoc, ← hfo2, hcs]
      · rw [hspan, hdrrev, hin, hz]
        rfl

/-- C28: whenever the extraction yields a span, that span starts at the first
opening brace of the text (no opening brace before it) and ends at the last
closing brace (none after it); when `JSON.parse` rejects the whole text, the
outcome of the parsing block is that of `JSON.parse` on this span.  In
particular, for two brace-delimited texts with anything between them, the span
covers both and what lies between. -/
theorem extraction_spans_first_to_last_brace (env : Env) (text : String) :
    (∀ span, extractJson text = some span →
      ∃ before inner after, text.toList = before ++ span.toList ++ after ∧
        openBrace ∉ before ∧ closeBrace ∉ after ∧
        span.toList = openBrace :: (inner ++ [closeBrace])) ∧
    (env.jsonParse text = none → ∀ span, extractJson text = some span →
      parseGeneratedText env text =
        match env.jsonParse span with
        | some value => .ok (.extracted, value)
        | none => .error parseFailure) ∧
    (∀ (before first between second after : String) (innerFirst innerSecond : List Char),
      (∀ c ∈ before.toList, c ≠ openBrace) → (∀ c ∈ after.toList, c ≠ closeBrace) →
      first.toList = openBrace :: (innerFirst ++ [closeBrace]) →
      second.toList = openBrace :: (innerSecond ++ [closeBrace]) →
      extractJson (before ++ (first ++ between ++ second) ++ after) =
        some (first ++ between ++ second)) := by
  refine ⟨fun span h => extractJson_span text span h, ?_, ?_⟩
  · intro hwhole span hspan
    simp only [parseGeneratedText, hwhole, hspan]
  · intro before first between second after innerFirst innerSecond hb ha hfirst hsecond
    refine extractJson_wrapped before (first ++ between ++ second) after
      (innerFirst ++ [closeBrace] ++ between.toList ++ [openBrace] ++ innerSecond) hb ha ?_
    have : (first ++ between ++ second).toList =
        first.toList ++ between.toList ++ second.toList := by
      simp [String.toList, String.data_append]
    rw [this, hfirst, hsecond]
    simp

/-! ## Token cache: failed calls -/

/-- C30: whenever `getAccessToken` fails, for whatever reason (missing API
key, rejected request, response without `access_token`), the cached token and
its expiry after the call are exactly what they were before it. -/
theorem getAccessToken_failure_keeps_cache (env : Env) (s : State) (e : JsError)
    (h : (getAccessToken env s).1 = .error e) :
    (getAccessToken env s).2.cachedToken = s.cachedToken ∧
      (getAccessToken env s).2.tokenExpiration = s.tokenExpiration := by
  cases hc : cachedIfValid s (env.clock s.clockReads) with
  | some tok =>
    rw [getAccessToken_fresh env s tok hc] at h
    cases h
  | none =>
    by_cases hkey : ApiKeyConfigured env
    · rw [getAccessToken_stale env s hc hkey] at h ⊢
      unfold getAccessTokenResume at h ⊢
      cases hr : readIamReply (env.iam s.iamCalls) with
      | error e2 => exact ⟨rfl, rfl⟩
      | ok v =>
        rw [hr] at h
        cases h
    · rw [getAccessToken_noKey env s hc hkey]
      exact ⟨rfl, rfl⟩

/-- C30, witness: an expired token "old" is cached when the identity provider
cannot be reached. -/
theorem getAccessToken_failure_keeps_cache_witness :
    (getAccessToken iamDownEnv
        { State.initial with cachedToken := some "old" }).2.cachedToken = some "old" ∧
      (getAccessToken iamDownEnv
        { State.initial with cachedToken := some "old" }).2.tokenExpiration = some 0 :=
  getAccessToken_failure_keeps_cache iamDownEnv { State.initial with cachedToken := some "old" }
    (tokenError "connect ECONNREFUSED") (by decide)

/-! ## Playback controller: a failed load after a reset -/

/-- When a load attempt fails for lack of connectivity, the attempt counter
and the delay of the retry it schedules come from the `retryCount` that the
function's render saw, not from the current state: with that value below 3,
the counter becomes it plus one and the retry is scheduled after
`2 ^ retryCount * 1000` ms, even when the state's counter has just been reset
to 0. -/
theorem loadSound_failure_counts_from_closure (dev : Device) (closure : PlayerState)
    (w : Player) (huri : dev.fullAudioUri ≠ "")
    (hoffline : dev.netConnected w.netFetches = false) (hcount : closure.retryCount < 3) :
    (loadSound dev closure { w with state := { w.state with retryCount := 0 } }).state.retryCount =
        closure.retryCount + 1 ∧
      (loadSound dev closure { w with state := { w.state with retryCount := 0 } }).scheduled =
        w.scheduled ++ [2 ^ closure.retryCount * 1000] := by
  simp [loadSound, huri, hoffline, loadFailed, hcount]

/-- The Retry control pressed on a device without connectivity by a render
that saw the counter at 2: the counter ends at 3 and the retry is scheduled
after 4000 ms. -/
theorem loadSound_failure_counts_from_closure_witness :
    (loadSound offlineDevice { exhaustedState with retryCount := 2 }
        { exhaustedPlayer with state := { exhaustedPlayer.state with retryCount := 0 } }
      ).state.retryCount = 2 + 1 ∧
      (loadSound offlineDevice { exhaustedState with retryCount := 2 }
        { exhaustedPlayer with state := { exhaustedPlayer.state with retryCount := 0 } }
      ).scheduled = exhaustedPlayer.scheduled ++ [2 ^ 2 * 1000] :=
  loadSound_failure_counts_from_closure offlineDevice { exhaustedState with retryCount := 2 }
    exhaustedPlayer (by decide) rfl (by decide)

end SoilSong
